import Mathlib

/-!
# The Direct3D 9 effect compiler

A shallow embedding of `source/d3d9/d3d9_effect_compiler.cpp`.

The compiler object is a record that is passed from call to call; every member
function of the C++ class becomes a function from the record to the new record.
Calls into the Direct3D device, the shader compiler library and the allocator
are answered by a record of functions (`d3d9_env`), so every statement below
holds for every behaviour of those collaborators.

Conventions:
* an unsigned integer is a natural number; where the source narrows a value
  (`DWORD(...)`, `static_cast<unsigned int>(...)`, `static_cast<unsigned long>(...)`)
  the reduction modulo `2 ^ 32` is written out;
* the fields of the effect module (`uniform_info.offset`, `sampler_info.binding`, ...)
  and of the runtime objects are declared in headers that are not part of the
  source file; they are natural numbers here and the arithmetic on them is exact;
* a pointer that may be null is an `Option`; a pointer that is only compared is a number;
* a 32-bit float is represented by its bit pattern; conversions to and from
  floats are answered by `d3d9_env`;
* `assert` is the release build's no-op.
-/

namespace reshade.d3d9

/-! ## Direct3D enumerations used by the translation tables -/

/-- The blend factors of Direct3D 9 that the table can produce. -/
inductive D3DBLEND where
  | D3DBLEND_ZERO
  | D3DBLEND_ONE
  | D3DBLEND_SRCCOLOR
  | D3DBLEND_INVSRCCOLOR
  | D3DBLEND_SRCALPHA
  | D3DBLEND_INVSRCALPHA
  | D3DBLEND_DESTALPHA
  | D3DBLEND_INVDESTALPHA
  | D3DBLEND_DESTCOLOR
  | D3DBLEND_INVDESTCOLOR
  deriving DecidableEq, Repr

/-- The stencil operations of Direct3D 9. -/
inductive D3DSTENCILOP where
  | D3DSTENCILOP_KEEP
  | D3DSTENCILOP_ZERO
  | D3DSTENCILOP_REPLACE
  | D3DSTENCILOP_INCRSAT
  | D3DSTENCILOP_DECRSAT
  | D3DSTENCILOP_INVERT
  | D3DSTENCILOP_INCR
  | D3DSTENCILOP_DECR
  deriving DecidableEq, Repr

/-- The surface formats of Direct3D 9 that `literal_to_format` can produce;
`FOURCC_ATI1` and `FOURCC_ATI2` stand for `MAKEFOURCC('A','T','I','1')` and
`MAKEFOURCC('A','T','I','2')`. -/
inductive D3DFORMAT where
  | D3DFMT_UNKNOWN
  | D3DFMT_A8R8G8B8
  | D3DFMT_R16F
  | D3DFMT_R32F
  | D3DFMT_G16R16
  | D3DFMT_G16R16F
  | D3DFMT_G32R32F
  | D3DFMT_A16B16G16R16
  | D3DFMT_A16B16G16R16F
  | D3DFMT_A32B32G32R32F
  | D3DFMT_DXT1
  | D3DFMT_DXT3
  | D3DFMT_DXT5
  | FOURCC_ATI1
  | FOURCC_ATI2
  deriving DecidableEq, Repr

/-- The texture formats of the effect runtime (`texture_format`); `unknown`
stands for every value that is none of the named ones. -/
inductive texture_format where
  | unknown
  | r8
  | r16f
  | r32f
  | rg8
  | rg16
  | rg16f
  | rg32f
  | rgba8
  | rgba16
  | rgba16f
  | rgba32f
  | dxt1
  | dxt3
  | dxt5
  | latc1
  | latc2
  deriving DecidableEq, Repr

/-- The two references a texture can be bound to (`texture_reference`). -/
inductive texture_reference where
  | back_buffer
  | depth_buffer
  deriving DecidableEq, Repr

/-- The render states written by `visit_technique`. -/
inductive D3DRENDERSTATETYPE where
  | D3DRS_ZENABLE
  | D3DRS_SPECULARENABLE
  | D3DRS_FILLMODE
  | D3DRS_SHADEMODE
  | D3DRS_ZWRITEENABLE
  | D3DRS_ALPHATESTENABLE
  | D3DRS_LASTPIXEL
  | D3DRS_SRCBLEND
  | D3DRS_DESTBLEND
  | D3DRS_ALPHAREF
  | D3DRS_ALPHAFUNC
  | D3DRS_DITHERENABLE
  | D3DRS_FOGSTART
  | D3DRS_FOGEND
  | D3DRS_FOGDENSITY
  | D3DRS_ALPHABLENDENABLE
  | D3DRS_DEPTHBIAS
  | D3DRS_STENCILENABLE
  | D3DRS_STENCILPASS
  | D3DRS_STENCILFAIL
  | D3DRS_STENCILZFAIL
  | D3DRS_STENCILFUNC
  | D3DRS_STENCILREF
  | D3DRS_STENCILMASK
  | D3DRS_STENCILWRITEMASK
  | D3DRS_TEXTUREFACTOR
  | D3DRS_LOCALVIEWER
  | D3DRS_EMISSIVEMATERIALSOURCE
  | D3DRS_AMBIENTMATERIALSOURCE
  | D3DRS_DIFFUSEMATERIALSOURCE
  | D3DRS_SPECULARMATERIALSOURCE
  | D3DRS_COLORWRITEENABLE
  | D3DRS_BLENDOP
  | D3DRS_SCISSORTESTENABLE
  | D3DRS_SLOPESCALEDEPTHBIAS
  | D3DRS_ANTIALIASEDLINEENABLE
  | D3DRS_TWOSIDEDSTENCILMODE
  | D3DRS_CCW_STENCILFAIL
  | D3DRS_CCW_STENCILZFAIL
  | D3DRS_CCW_STENCILPASS
  | D3DRS_CCW_STENCILFUNC
  | D3DRS_COLORWRITEENABLE1
  | D3DRS_COLORWRITEENABLE2
  | D3DRS_COLORWRITEENABLE3
  | D3DRS_BLENDFACTOR
  | D3DRS_SRGBWRITEENABLE
  | D3DRS_SEPARATEALPHABLENDENABLE
  | D3DRS_SRCBLENDALPHA
  | D3DRS_DESTBLENDALPHA
  | D3DRS_BLENDOPALPHA
  | D3DRS_FOGENABLE
  | D3DRS_CULLMODE
  | D3DRS_LIGHTING
  deriving DecidableEq, Repr

/-- The value handed to `SetRenderState`: a number (a literal, a boolean as 0 or 1,
or a field of the pass cast to its Direct3D type), a blend factor, a stencil
operation, or one of the named constants of the Direct3D headers. -/
inductive render_state_value where
  | dword (value : Nat)
  | blend (value : D3DBLEND)
  | stencil_op (value : D3DSTENCILOP)
  | D3DFILL_SOLID
  | D3DSHADE_GOURAUD
  | D3DCMP_ALWAYS
  | D3DMCS_MATERIAL
  | D3DMCS_COLOR1
  | D3DMCS_COLOR2
  | D3DCULL_NONE
  deriving DecidableEq, Repr

/-! ## The translation tables -/

/-- The function `literal_to_blend_func`: the switch on the blend code, whose
`default` label shares the body of `case 1`. -/
def literal_to_blend_func (value : Nat) : D3DBLEND :=
  match value with
  | 0 => D3DBLEND.D3DBLEND_ZERO
  | 1 => D3DBLEND.D3DBLEND_ONE
  | 2 => D3DBLEND.D3DBLEND_SRCCOLOR
  | 4 => D3DBLEND.D3DBLEND_INVSRCCOLOR
  | 3 => D3DBLEND.D3DBLEND_SRCALPHA
  | 5 => D3DBLEND.D3DBLEND_INVSRCALPHA
  | 6 => D3DBLEND.D3DBLEND_DESTALPHA
  | 7 => D3DBLEND.D3DBLEND_INVDESTALPHA
  | 8 => D3DBLEND.D3DBLEND_DESTCOLOR
  | 9 => D3DBLEND.D3DBLEND_INVDESTCOLOR
  | _ => D3DBLEND.D3DBLEND_ONE

/-- The function `literal_to_stencil_op`: the switch on the stencil code, whose
`default` label shares the body of `case 1` (code 2 has no case of its own). -/
def literal_to_stencil_op (value : Nat) : D3DSTENCILOP :=
  match value with
  | 1 => D3DSTENCILOP.D3DSTENCILOP_KEEP
  | 0 => D3DSTENCILOP.D3DSTENCILOP_ZERO
  | 3 => D3DSTENCILOP.D3DSTENCILOP_REPLACE
  | 4 => D3DSTENCILOP.D3DSTENCILOP_INCRSAT
  | 5 => D3DSTENCILOP.D3DSTENCILOP_DECRSAT
  | 6 => D3DSTENCILOP.D3DSTENCILOP_INVERT
  | 7 => D3DSTENCILOP.D3DSTENCILOP_INCR
  | 8 => D3DSTENCILOP.D3DSTENCILOP_DECR
  | _ => D3DSTENCILOP.D3DSTENCILOP_KEEP

/-- The function `literal_to_format`. -/
def literal_to_format (value : texture_format) : D3DFORMAT :=
  match value with
  | texture_format.r8 => D3DFORMAT.D3DFMT_A8R8G8B8
  | texture_format.r16f => D3DFORMAT.D3DFMT_R16F
  | texture_format.r32f => D3DFORMAT.D3DFMT_R32F
  | texture_format.rg8 => D3DFORMAT.D3DFMT_A8R8G8B8
  | texture_format.rg16 => D3DFORMAT.D3DFMT_G16R16
  | texture_format.rg16f => D3DFORMAT.D3DFMT_G16R16F
  | texture_format.rg32f => D3DFORMAT.D3DFMT_G32R32F
  | texture_format.rgba8 => D3DFORMAT.D3DFMT_A8R8G8B8
  | texture_format.rgba16 => D3DFORMAT.D3DFMT_A16B16G16R16
  | texture_format.rgba16f => D3DFORMAT.D3DFMT_A16B16G16R16F
  | texture_format.rgba32f => D3DFORMAT.D3DFMT_A32B32G32R32F
  | texture_format.dxt1 => D3DFORMAT.D3DFMT_DXT1
  | texture_format.dxt3 => D3DFORMAT.D3DFMT_DXT3
  | texture_format.dxt5 => D3DFORMAT.D3DFMT_DXT5
  | texture_format.latc1 => D3DFORMAT.FOURCC_ATI1
  | texture_format.latc2 => D3DFORMAT.FOURCC_ATI2
  | texture_format.unknown => D3DFORMAT.D3DFMT_UNKNOWN

/-! ## The effect module read by the compiler -/

/-- The base types of the effect language (`type::t_...`). -/
inductive type_base where
  | t_void
  | t_bool
  | t_int
  | t_uint
  | t_float
  | t_string
  | t_struct
  | t_sampler
  | t_texture
  | t_function
  deriving DecidableEq, Repr

/-- The part of `reshadefx::type` read by the compiler. -/
structure type where
  base : type_base
  rows : Nat
  cols : Nat
  array_length : Int
  deriving DecidableEq, Repr

/-- A `reshadefx::constant`: the union `as_float` / `as_int` / `as_uint` is kept as
its 32-bit words, next to the string data. -/
structure constant where
  words : List Nat
  string_data : String
  deriving DecidableEq, Repr

/-- The word `i` read as an unsigned integer (`as_uint[i]`); a word that is not
there reads as 0. -/
def constant.as_uint (c : constant) (i : Nat) : Nat :=
  c.words.getD i 0 % 4294967296

/-- The word `i` read as a signed integer (`as_int[i]`). -/
def constant.as_int (c : constant) (i : Nat) : Int :=
  if c.as_uint i < 2147483648 then (c.as_uint i : Int) else (c.as_uint i : Int) - 4294967296

/-- The word `i` read as a float (`as_float[i]`), that is, its bit pattern. -/
def constant.as_float (c : constant) (i : Nat) : Nat :=
  c.as_uint i

/-- The runtime's `variant`, built from an int, an unsigned int, a float (its bit
pattern) or a string. -/
inductive variant where
  | of_int (value : Int)
  | of_uint (value : Nat)
  | of_float (bits : Nat)
  | of_string (value : String)
  deriving DecidableEq, Repr

/-- The fields of `reshadefx::texture_info` read by the compiler. -/
structure texture_info where
  unique_name : String
  semantic : String
  annotations : List (String × type × constant)
  width : Nat
  height : Nat
  levels : Nat
  format : texture_format
  deriving DecidableEq, Repr

/-- The fields of `reshadefx::sampler_info` read by the compiler; `lod_bias` and
`min_lod` are floats, kept as bit patterns. -/
structure sampler_info where
  texture_name : String
  binding : Nat
  address_u : Nat
  address_v : Nat
  address_w : Nat
  filter : Nat
  lod_bias : Nat
  min_lod : Nat
  srgb : Bool
  deriving DecidableEq, Repr

/-- The fields of `reshadefx::uniform_info` read by the compiler. -/
structure uniform_info where
  name : String
  type : type
  size : Nat
  offset : Nat
  annotations : List (String × d3d9.type × constant)
  has_initializer_value : Bool
  initializer_value : constant
  deriving DecidableEq, Repr

/-- The fields of `reshadefx::pass_info` read by the compiler;
`render_target_names` is the array of eight names (a missing entry reads as the
empty string). -/
structure pass_info where
  render_target_names : List String
  vs_entry_point : String
  ps_entry_point : String
  clear_render_targets : Bool
  srgb_write_enable : Bool
  blend_enable : Bool
  stencil_enable : Bool
  color_write_mask : Nat
  stencil_read_mask : Nat
  stencil_write_mask : Nat
  blend_op : Nat
  blend_op_alpha : Nat
  src_blend : Nat
  dest_blend : Nat
  src_blend_alpha : Nat
  dest_blend_alpha : Nat
  stencil_comparison_func : Nat
  stencil_reference_value : Nat
  stencil_op_pass : Nat
  stencil_op_fail : Nat
  stencil_op_depth_fail : Nat
  deriving DecidableEq, Repr

/-- The fields of `reshadefx::technique_info` read by the compiler. -/
structure technique_info where
  name : String
  passes : List pass_info
  annotations : List (String × type × constant)
  deriving DecidableEq, Repr

/-- The fields of `reshadefx::module` read by the compiler. -/
structure module where
  hlsl : String
  textures : List texture_info
  samplers : List sampler_info
  uniforms : List uniform_info
  entry_points : List (String × Bool)
  techniques : List technique_info
  deriving DecidableEq, Repr

/-! ## The objects owned by the runtime -/

/-- The Direct3D side of a texture (`d3d9_tex_data`): `addr` is the address of the
object (what a sampler points to), `texture` and `surface` are the COM pointers. -/
structure d3d9_tex_data where
  addr : Nat
  texture : Option Nat
  surface : Option Nat
  deriving DecidableEq, Repr

/-- The runtime's `texture` object. -/
structure texture where
  unique_name : String
  effect_filename : String
  annotations : List (String × variant)
  width : Nat
  height : Nat
  levels : Nat
  format : texture_format
  impl : d3d9_tex_data
  deriving DecidableEq, Repr

/-- The runtime's `uniform_datatype`. -/
inductive uniform_datatype where
  | boolean
  | signed_integer
  | unsigned_integer
  | floating_point
  deriving DecidableEq, Repr

/-- The runtime's `uniform` object; `displaytype` is `none` while it has the value
its declaration gives it. -/
structure uniform where
  name : String
  basetype : uniform_datatype
  displaytype : Option uniform_datatype
  rows : Nat
  columns : Nat
  elements : Nat
  storage_offset : Nat
  storage_size : Nat
  annotations : List (String × variant)
  deriving DecidableEq, Repr

/-- A `d3d9_sampler`: the array `states` of sampler states and the texture it
reads (`none` is the null pointer). -/
structure d3d9_sampler where
  states : List Nat
  texture : Option Nat
  deriving DecidableEq, Repr

/-- The state block recorded between `BeginStateBlock` and `EndStateBlock`. -/
structure stateblock where
  vertex_shader : Option Nat
  pixel_shader : Option Nat
  render_states : List (D3DRENDERSTATETYPE × render_state_value)
  deriving DecidableEq, Repr

/-- A `d3d9_pass_data`: `samplers` has sixteen slots, `render_targets` eight. -/
structure d3d9_pass_data where
  vertex_shader : Option Nat
  pixel_shader : Option Nat
  samplers : List d3d9_sampler
  sampler_count : Nat
  stateblock : Option stateblock
  clear_render_targets : Bool
  render_targets : List (Option Nat)
  deriving DecidableEq, Repr

/-- The runtime's `technique` object; the two storage fields are `none` while they
have the value their declaration gives them. -/
structure technique where
  name : String
  annotations : List (String × variant)
  uniform_storage_index : Option Nat
  uniform_storage_offset : Option Nat
  passes : List d3d9_pass_data
  deriving DecidableEq, Repr

/-- The part of `d3d9_runtime` the compiler reads and writes. -/
structure d3d9_runtime where
  textures : List texture
  uniforms : List uniform
  techniques : List technique
  uniform_value_storage : List Nat
  _backbuffer_resolved : Option Nat
  deriving DecidableEq, Repr

/-- Modelled from the spec: `runtime::find_texture` is declared in the runtime,
outside the source file. Textures are shared by name, so it is the first texture
of the runtime with that unique name, or the null pointer. -/
def find_texture (rt : d3d9_runtime) (unique_name : String) : Option texture :=
  rt.textures.find? (fun item => item.unique_name == unique_name)

/-- Modelled from the spec: `runtime::add_texture` is declared in the runtime,
outside the source file; the runtime owns the created resources, so the texture
joins the end of its list. -/
def add_texture (rt : d3d9_runtime) (obj : texture) : d3d9_runtime :=
  { rt with textures := rt.textures ++ [obj] }

/-- Modelled from the spec: `runtime::add_uniform` is declared in the runtime,
outside the source file; the uniform joins the end of the runtime's list. -/
def add_uniform (rt : d3d9_runtime) (obj : uniform) : d3d9_runtime :=
  { rt with uniforms := rt.uniforms ++ [obj] }

/-- Modelled from the spec: `runtime::add_technique` is declared in the runtime,
outside the source file; the technique joins the end of the runtime's list. -/
def add_technique (rt : d3d9_runtime) (obj : technique) : d3d9_runtime :=
  { rt with techniques := rt.techniques ++ [obj] }

/-! ## The collaborators -/

/-- The answers of the collaborators of the compiler: the library loader, the
Direct3D object and device, the shader compiler, the allocator, and the float
conversions of the machine. -/
structure d3d9_env where
  /-- Whether `LoadLibraryW(L"d3dcompiler_47.dll")` returns a module. -/
  load_d3dcompiler_47 : Bool
  /-- Whether `LoadLibraryW(L"d3dcompiler_43.dll")` returns a module. -/
  load_d3dcompiler_43 : Bool
  /-- The bit pattern of `static_cast<float>(v)` for a signed integer. -/
  int_to_float : Int → Nat
  /-- The bit pattern of `static_cast<float>(v)` for an unsigned integer. -/
  uint_to_float : Nat → Nat
  /-- The value of `static_cast<DWORD>(std::max(0.0f, x))` for the float with bit pattern `x`. -/
  max_zero_to_dword : Nat → Nat
  /-- The address `std::make_unique<d3d9_tex_data>()` returns for the texture of that name. -/
  make_unique_tex_data : String → Nat
  /-- The texture after `d3d9_runtime::update_texture_reference`. -/
  update_texture_reference : texture → texture_reference → texture
  /-- The result of `IDirect3D9::CheckDeviceFormat` for a usage and a format. -/
  CheckDeviceFormat : Nat → D3DFORMAT → Int
  /-- The result of `CreateTexture` (width, height, levels, usage, format) and the texture created. -/
  CreateTexture : Nat → Nat → Nat → Nat → D3DFORMAT → Int × Nat
  /-- The surface `GetSurfaceLevel(0, ...)` yields for a texture. -/
  GetSurfaceLevel : Nat → Option Nat
  /-- The result of `BeginStateBlock` for the pass with that index of the technique with that name. -/
  BeginStateBlock : String → Nat → Int
  /-- The field `NumSimultaneousRTs` of the device capabilities. -/
  NumSimultaneousRTs : Nat
  /-- The result of `D3DCompile` (source, entry point, profile) and the text of its error blob. -/
  D3DCompile : String → String → String → Int × Option String
  /-- The result of `CreatePixelShader` for an entry point and the shader created. -/
  CreatePixelShader : String → Int × Option Nat
  /-- The result of `CreateVertexShader` for an entry point and the shader created. -/
  CreateVertexShader : String → Int × Option Nat

/-- The macro `FAILED` on an `HRESULT`. -/
def FAILED (hr : Int) : Bool :=
  decide (hr < 0)

/-- The macro `SUCCEEDED` on an `HRESULT`. -/
def SUCCEEDED (hr : Int) : Bool :=
  decide (0 ≤ hr)

/-- The text `std::to_string(static_cast<unsigned long>(hr))`. -/
def hresult_to_string (hr : Int) : String :=
  Nat.repr (hr % 4294967296).toNat

/-! ## The compiler object -/

/-- The members of `d3d9_effect_compiler`. The module is handed to `run`.
`error_calls` is not a member of the C++ class: it counts the calls of `error`, so
that statements about "a call of `error`" can be written down. -/
structure d3d9_effect_compiler where
  _runtime : d3d9_runtime
  _success : Bool
  _errors : String
  _uniform_storage_offset : Nat
  _constant_register_count : Nat
  _sampler_bindings : List d3d9_sampler
  vs_entry_points : List (String × Option Nat)
  ps_entry_points : List (String × Option Nat)
  error_calls : Nat
  deriving DecidableEq, Repr

/-- The constructor `d3d9_effect_compiler(runtime, module, errors)`. It only
stores its arguments; the members it does not mention start with the values of
their declarations in the header: the flag set, the counters at zero and the
containers empty. -/
def d3d9_effect_compiler.create (runtime : d3d9_runtime) (errors : String) : d3d9_effect_compiler :=
  { _runtime := runtime
    _success := true
    _errors := errors
    _uniform_storage_offset := 0
    _constant_register_count := 0
    _sampler_bindings := []
    vs_entry_points := []
    ps_entry_points := []
    error_calls := 0 }

/-- The member function `error`. -/
def error (c : d3d9_effect_compiler) (message : String) : d3d9_effect_compiler :=
  { c with
    _success := false
    _errors := c._errors ++ ("error: " ++ message ++ "\n")
    error_calls := c.error_calls + 1 }

/-- The member function `warning`. -/
def warning (c : d3d9_effect_compiler) (message : String) : d3d9_effect_compiler :=
  { c with _errors := c._errors ++ ("warning: " ++ message ++ "\n") }

/-- The call `target.insert({ key, value })` on an `unordered_map`: a key that is
present keeps its value. -/
def map_insert (target : List (String × variant)) (key : String) (value : variant) :
    List (String × variant) :=
  if target.any (fun entry => entry.1 == key) then target else target ++ [(key, value)]

/-- The function `copy_annotations`. -/
def copy_annotations (source : List (String × type × constant))
    (target : List (String × variant)) : List (String × variant) :=
  source.foldl
    (fun target entry =>
      match entry.2.1.base with
      | type_base.t_int => map_insert target entry.1 (variant.of_int (entry.2.2.as_int 0))
      | type_base.t_bool => map_insert target entry.1 (variant.of_uint (entry.2.2.as_uint 0))
      | type_base.t_uint => map_insert target entry.1 (variant.of_uint (entry.2.2.as_uint 0))
      | type_base.t_float => map_insert target entry.1 (variant.of_float (entry.2.2.as_float 0))
      | type_base.t_string => map_insert target entry.1 (variant.of_string entry.2.2.string_data)
      | _ => target)
    target

/-! ## Textures -/

/-- The usage flag `D3DUSAGE_RENDERTARGET` of the Direct3D headers. -/
def D3DUSAGE_RENDERTARGET : Nat := 1

/-- The usage flag `D3DUSAGE_AUTOGENMIPMAP` of the Direct3D headers. -/
def D3DUSAGE_AUTOGENMIPMAP : Nat := 1024

/-- The condition under which `visit_texture` reports a clash with the texture
that already has the name. -/
def texture_mismatch (existing_texture : texture) (info : texture_info) : Bool :=
  info.semantic == "" &&
    (existing_texture.width != info.width ||
     existing_texture.height != info.height ||
     existing_texture.levels != info.levels ||
     existing_texture.format != info.format)

/-- The text of the error `visit_texture` reports for a clash. -/
def texture_mismatch_message (existing_texture : texture) : String :=
  existing_texture.effect_filename ++ " already created a texture with the same name but different dimensions; textures are shared across all effects, so either rename the variable or adjust the dimensions so they match"

/-- The member function `visit_texture`. -/
def visit_texture (env : d3d9_env) (c : d3d9_effect_compiler) (info : texture_info) :
    d3d9_effect_compiler :=
  match find_texture c._runtime info.unique_name with
  | some existing_texture =>
    if texture_mismatch existing_texture info then
      error c (texture_mismatch_message existing_texture)
    else
      c
  | none =>
    let obj : texture :=
      { unique_name := info.unique_name
        effect_filename := ""
        annotations := copy_annotations info.annotations []
        width := info.width
        height := info.height
        levels := info.levels
        format := info.format
        impl := { addr := env.make_unique_tex_data info.unique_name, texture := none, surface := none } }
    let format := literal_to_format obj.format
    if info.semantic == "COLOR" then
      { c with _runtime := add_texture c._runtime (env.update_texture_reference obj texture_reference.back_buffer) }
    else if info.semantic == "DEPTH" then
      { c with _runtime := add_texture c._runtime (env.update_texture_reference obj texture_reference.depth_buffer) }
    else if info.semantic != "" then
      error c "invalid semantic"
    else
      let mip_supported :=
        decide (env.CheckDeviceFormat D3DUSAGE_AUTOGENMIPMAP format = 0)
      let c1 :=
        if 1 < obj.levels && !mip_supported then
          warning c "autogenerated miplevels are not supported for this format"
        else
          c
      let levels := if 1 < obj.levels && mip_supported then 0 else obj.levels
      let usage := if 1 < obj.levels && mip_supported then D3DUSAGE_AUTOGENMIPMAP else 0
      let usage :=
        if SUCCEEDED (env.CheckDeviceFormat D3DUSAGE_RENDERTARGET format) then
          usage ||| D3DUSAGE_RENDERTARGET
        else
          usage
      let created := env.CreateTexture obj.width obj.height levels usage format
      if FAILED created.1 then
        error c1 ("internal texture creation failed with error code " ++ hresult_to_string created.1 ++ "!")
      else
        let obj1 : texture :=
          { obj with impl := { obj.impl with texture := some created.2, surface := env.GetSurfaceLevel created.2 } }
        { c1 with _runtime := add_texture c1._runtime obj1 }

/-! ## Samplers -/

/-- The sampler state index `D3DSAMP_ADDRESSU` of the Direct3D headers. -/
def D3DSAMP_ADDRESSU : Nat := 1

/-- The sampler state index `D3DSAMP_ADDRESSV` of the Direct3D headers. -/
def D3DSAMP_ADDRESSV : Nat := 2

/-- The sampler state index `D3DSAMP_ADDRESSW` of the Direct3D headers. -/
def D3DSAMP_ADDRESSW : Nat := 3

/-- The sampler state index `D3DSAMP_BORDERCOLOR` of the Direct3D headers. -/
def D3DSAMP_BORDERCOLOR : Nat := 4

/-- The sampler state index `D3DSAMP_MAGFILTER` of the Direct3D headers. -/
def D3DSAMP_MAGFILTER : Nat := 5

/-- The sampler state index `D3DSAMP_MINFILTER` of the Direct3D headers. -/
def D3DSAMP_MINFILTER : Nat := 6

/-- The sampler state index `D3DSAMP_MIPFILTER` of the Direct3D headers. -/
def D3DSAMP_MIPFILTER : Nat := 7

/-- The sampler state index `D3DSAMP_MIPMAPLODBIAS` of the Direct3D headers. -/
def D3DSAMP_MIPMAPLODBIAS : Nat := 8

/-- The sampler state index `D3DSAMP_MAXMIPLEVEL` of the Direct3D headers. -/
def D3DSAMP_MAXMIPLEVEL : Nat := 9

/-- The sampler state index `D3DSAMP_MAXANISOTROPY` of the Direct3D headers. -/
def D3DSAMP_MAXANISOTROPY : Nat := 10

/-- The sampler state index `D3DSAMP_SRGBTEXTURE` of the Direct3D headers. -/
def D3DSAMP_SRGBTEXTURE : Nat := 11

/-- A value-initialised `d3d9_sampler`: twelve states of zero and no texture. -/
def d3d9_sampler.empty : d3d9_sampler :=
  { states := List.replicate 12 0, texture := none }

/-- The call `resize(n)` on a `std::vector`: the first `n` elements are kept and
new elements are value-initialised. -/
def vector_resize {α : Type} (v : List α) (n : Nat) (fresh : α) : List α :=
  v.take n ++ List.replicate (n - v.length) fresh

/-- The sampler `visit_sampler` builds for a texture that exists. -/
def make_sampler (env : d3d9_env) (existing_texture : texture) (info : sampler_info) :
    d3d9_sampler :=
  let states := d3d9_sampler.empty.states
  let states := states.set D3DSAMP_ADDRESSU info.address_u
  let states := states.set D3DSAMP_ADDRESSV info.address_v
  let states := states.set D3DSAMP_ADDRESSW info.address_w
  let states := states.set D3DSAMP_BORDERCOLOR 0
  let states := states.set D3DSAMP_MAGFILTER (1 + (((info.filter % 4294967296) &&& 0x0C) >>> 2))
  let states := states.set D3DSAMP_MINFILTER (1 + (((info.filter % 4294967296) &&& 0x30) >>> 4))
  let states := states.set D3DSAMP_MIPFILTER (1 + ((info.filter % 4294967296) &&& 0x03))
  let states := states.set D3DSAMP_MIPMAPLODBIAS info.lod_bias
  let states := states.set D3DSAMP_MAXMIPLEVEL (env.max_zero_to_dword info.min_lod)
  let states := states.set D3DSAMP_MAXANISOTROPY 1
  let states := states.set D3DSAMP_SRGBTEXTURE (if info.srgb then 1 else 0)
  { states := states, texture := some existing_texture.impl.addr }

/-- The member function `visit_sampler`. -/
def visit_sampler (env : d3d9_env) (c : d3d9_effect_compiler) (info : sampler_info) :
    d3d9_effect_compiler :=
  match find_texture c._runtime info.texture_name with
  | none => c
  | some existing_texture =>
    let sampler := make_sampler env existing_texture info
    let bindings :=
      vector_resize c._sampler_bindings (max c._sampler_bindings.length (info.binding + 1))
        d3d9_sampler.empty
    { c with _sampler_bindings := bindings.set info.binding sampler }

/-! ## Uniforms -/

/-- Writing bytes into the storage from a byte offset on. The storage is the
vector itself: a byte whose position is not below the size of the vector is
outside it and is not part of the result. -/
def store_bytes : List Nat → Nat → List Nat → List Nat
  | storage, _, [] => storage
  | storage, offset, b :: bs => store_bytes (storage.set offset b) (offset + 1) bs

/-- The four bytes of a 32-bit pattern, lowest first. -/
def float_bytes (bits : Nat) : List Nat :=
  [bits % 256, bits / 256 % 256, bits / 65536 % 256, bits / 16777216 % 256]

/-- The call `memset(data + offset, value, count)`. -/
def memset (storage : List Nat) (offset value count : Nat) : List Nat :=
  store_bytes storage offset (List.replicate count value)

/-- The loop of `visit_uniform` that writes the initializer as `storage_size / 4`
floats from `storage_offset` on. -/
def write_initializer (env : d3d9_env) (info : uniform_info)
    (storage_offset storage_size : Nat) (storage : List Nat) : List Nat :=
  (List.range (storage_size / 4)).foldl
    (fun st i =>
      match info.type.base with
      | type_base.t_int =>
        store_bytes st (storage_offset + 4 * i)
          (float_bytes (env.int_to_float (info.initializer_value.as_int i)))
      | type_base.t_uint =>
        store_bytes st (storage_offset + 4 * i)
          (float_bytes (env.uint_to_float (info.initializer_value.as_uint i)))
      | type_base.t_float =>
        store_bytes st (storage_offset + 4 * i)
          (float_bytes (info.initializer_value.as_float i))
      | _ => st)
    storage

/-- The `uniform` object `visit_uniform` builds. -/
def make_uniform (c : d3d9_effect_compiler) (info : uniform_info) : uniform :=
  { name := info.name
    rows := info.type.rows
    columns := info.type.cols
    elements := (max 1 info.type.array_length).toNat
    storage_size := info.size
    storage_offset := c._uniform_storage_offset + info.offset * 4
    annotations := copy_annotations info.annotations []
    basetype := uniform_datatype.floating_point
    displaytype :=
      match info.type.base with
      | type_base.t_int => some uniform_datatype.signed_integer
      | type_base.t_uint => some uniform_datatype.unsigned_integer
      | type_base.t_float => some uniform_datatype.floating_point
      | _ => none }

/-- The storage after the growth step of `visit_uniform`: one `resize` by 128
bytes when the end of the uniform is not below the size of the storage. -/
def grow_storage (obj : uniform) (uniform_storage : List Nat) : List Nat :=
  if obj.storage_offset + obj.storage_size ≥ uniform_storage.length then
    vector_resize uniform_storage (uniform_storage.length + 128) 0
  else
    uniform_storage

/-- The member function `visit_uniform`. -/
def visit_uniform (env : d3d9_env) (c : d3d9_effect_compiler) (info : uniform_info) :
    d3d9_effect_compiler :=
  let obj := make_uniform c info
  let count := c._constant_register_count + obj.storage_size / 4
  let uniform_storage := grow_storage obj c._runtime.uniform_value_storage
  let uniform_storage :=
    if info.has_initializer_value then
      write_initializer env info obj.storage_offset obj.storage_size uniform_storage
    else
      memset uniform_storage obj.storage_offset 0 obj.storage_size
  { c with
    _constant_register_count := count
    _runtime := add_uniform { c._runtime with uniform_value_storage := uniform_storage } obj }

/-! ## Entry points -/

/-- Reading `map[key]` from a map of shader objects: the null pointer when the
key has no entry. -/
def map_lookup (m : List (String × Option Nat)) (key : String) : Option Nat :=
  match m.find? (fun entry => entry.1 == key) with
  | some entry => entry.2
  | none => none

/-- The entry `map[key]` comes into being with a null pointer when it is read and
the key has no entry. -/
def map_touch (m : List (String × Option Nat)) (key : String) : List (String × Option Nat) :=
  if m.any (fun entry => entry.1 == key) then m else m ++ [(key, none)]

/-- Storing a shader object into `map[key]`. -/
def map_set (m : List (String × Option Nat)) (key : String) (value : Option Nat) :
    List (String × Option Nat) :=
  if m.any (fun entry => entry.1 == key) then
    m.map (fun entry => if entry.1 == key then (entry.1, value) else entry)
  else
    m ++ [(key, value)]

/-- The step `if (errors != nullptr) _errors.append(...)` of `compile_entry_point`:
the text of the error blob, without its terminator, joins the error text. -/
def append_compiler_output (c : d3d9_effect_compiler) (text : Option String) :
    d3d9_effect_compiler :=
  match text with
  | some text => { c with _errors := c._errors ++ text }
  | none => c

/-- The shader object created for an entry point is stored in `ps_entry_points`
or in `vs_entry_points`. -/
def store_shader (c : d3d9_effect_compiler) (is_ps : Bool) (entry_point : String)
    (shader : Option Nat) : d3d9_effect_compiler :=
  if is_ps then
    { c with ps_entry_points := map_set c.ps_entry_points entry_point shader }
  else
    { c with vs_entry_points := map_set c.vs_entry_points entry_point shader }

/-- The member function `compile_entry_point`; `hlsl` is `_module->hlsl`. -/
def compile_entry_point (env : d3d9_env) (c : d3d9_effect_compiler) (hlsl : String)
    (entry_point : String) (is_ps : Bool) : d3d9_effect_compiler :=
  let compiled := env.D3DCompile hlsl entry_point (if is_ps then "ps_3_0" else "vs_3_0")
  let c1 := append_compiler_output c compiled.2
  if FAILED compiled.1 then
    error c1 "internal shader compilation failed"
  else
    let created :=
      if is_ps then env.CreatePixelShader entry_point else env.CreateVertexShader entry_point
    let c2 := store_shader c1 is_ps entry_point created.2
    if FAILED created.1 then
      error c2 ("internal shader creation failed with error code " ++
        hresult_to_string created.1 ++ "!")
    else
      c2

/-! ## Techniques -/

/-- How a loop of `visit_technique` ends: it runs to its end (or leaves through
`break`) with a value, or the function returns from inside it. -/
inductive loop_outcome (α : Type) where
  | completed (c : d3d9_effect_compiler) (value : α)
  | returned (c : d3d9_effect_compiler)

/-- The number a boolean becomes when it is passed as a `DWORD`. -/
def bool_dword (b : Bool) : render_state_value :=
  render_state_value.dword (if b then 1 else 0)

/-- The calls recorded between `BeginStateBlock` and `EndStateBlock`, in order. -/
def record_stateblock (pass : d3d9_pass_data) (info : pass_info) : stateblock :=
  { vertex_shader := pass.vertex_shader
    pixel_shader := pass.pixel_shader
    render_states :=
      [ (D3DRENDERSTATETYPE.D3DRS_ZENABLE, bool_dword false),
        (D3DRENDERSTATETYPE.D3DRS_SPECULARENABLE, bool_dword false),
        (D3DRENDERSTATETYPE.D3DRS_FILLMODE, render_state_value.D3DFILL_SOLID),
        (D3DRENDERSTATETYPE.D3DRS_SHADEMODE, render_state_value.D3DSHADE_GOURAUD),
        (D3DRENDERSTATETYPE.D3DRS_ZWRITEENABLE, bool_dword true),
        (D3DRENDERSTATETYPE.D3DRS_ALPHATESTENABLE, bool_dword false),
        (D3DRENDERSTATETYPE.D3DRS_LASTPIXEL, bool_dword true),
        (D3DRENDERSTATETYPE.D3DRS_SRCBLEND, render_state_value.blend (literal_to_blend_func info.src_blend)),
        (D3DRENDERSTATETYPE.D3DRS_DESTBLEND, render_state_value.blend (literal_to_blend_func info.dest_blend)),
        (D3DRENDERSTATETYPE.D3DRS_ALPHAREF, render_state_value.dword 0),
        (D3DRENDERSTATETYPE.D3DRS_ALPHAFUNC, render_state_value.D3DCMP_ALWAYS),
        (D3DRENDERSTATETYPE.D3DRS_DITHERENABLE, bool_dword false),
        (D3DRENDERSTATETYPE.D3DRS_FOGSTART, render_state_value.dword 0),
        (D3DRENDERSTATETYPE.D3DRS_FOGEND, render_state_value.dword 1),
        (D3DRENDERSTATETYPE.D3DRS_FOGDENSITY, render_state_value.dword 1),
        (D3DRENDERSTATETYPE.D3DRS_ALPHABLENDENABLE, bool_dword info.blend_enable),
        (D3DRENDERSTATETYPE.D3DRS_DEPTHBIAS, render_state_value.dword 0),
        (D3DRENDERSTATETYPE.D3DRS_STENCILENABLE, bool_dword info.stencil_enable),
        (D3DRENDERSTATETYPE.D3DRS_STENCILPASS, render_state_value.stencil_op (literal_to_stencil_op info.stencil_op_pass)),
        (D3DRENDERSTATETYPE.D3DRS_STENCILFAIL, render_state_value.stencil_op (literal_to_stencil_op info.stencil_op_fail)),
        (D3DRENDERSTATETYPE.D3DRS_STENCILZFAIL, render_state_value.stencil_op (literal_to_stencil_op info.stencil_op_depth_fail)),
        (D3DRENDERSTATETYPE.D3DRS_STENCILFUNC, render_state_value.dword info.stencil_comparison_func),
        (D3DRENDERSTATETYPE.D3DRS_STENCILREF, render_state_value.dword info.stencil_reference_value),
        (D3DRENDERSTATETYPE.D3DRS_STENCILMASK, render_state_value.dword info.stencil_read_mask),
        (D3DRENDERSTATETYPE.D3DRS_STENCILWRITEMASK, render_state_value.dword info.stencil_write_mask),
        (D3DRENDERSTATETYPE.D3DRS_TEXTUREFACTOR, render_state_value.dword 0xFFFFFFFF),
        (D3DRENDERSTATETYPE.D3DRS_LOCALVIEWER, bool_dword true),
        (D3DRENDERSTATETYPE.D3DRS_EMISSIVEMATERIALSOURCE, render_state_value.D3DMCS_MATERIAL),
        (D3DRENDERSTATETYPE.D3DRS_AMBIENTMATERIALSOURCE, render_state_value.D3DMCS_MATERIAL),
        (D3DRENDERSTATETYPE.D3DRS_DIFFUSEMATERIALSOURCE, render_state_value.D3DMCS_COLOR1),
        (D3DRENDERSTATETYPE.D3DRS_SPECULARMATERIALSOURCE, render_state_value.D3DMCS_COLOR2),
        (D3DRENDERSTATETYPE.D3DRS_COLORWRITEENABLE, render_state_value.dword info.color_write_mask),
        (D3DRENDERSTATETYPE.D3DRS_BLENDOP, render_state_value.dword info.blend_op),
        (D3DRENDERSTATETYPE.D3DRS_SCISSORTESTENABLE, bool_dword false),
        (D3DRENDERSTATETYPE.D3DRS_SLOPESCALEDEPTHBIAS, render_state_value.dword 0),
        (D3DRENDERSTATETYPE.D3DRS_ANTIALIASEDLINEENABLE, bool_dword false),
        (D3DRENDERSTATETYPE.D3DRS_TWOSIDEDSTENCILMODE, bool_dword false),
        (D3DRENDERSTATETYPE.D3DRS_CCW_STENCILFAIL, render_state_value.stencil_op D3DSTENCILOP.D3DSTENCILOP_KEEP),
        (D3DRENDERSTATETYPE.D3DRS_CCW_STENCILZFAIL, render_state_value.stencil_op D3DSTENCILOP.D3DSTENCILOP_KEEP),
        (D3DRENDERSTATETYPE.D3DRS_CCW_STENCILPASS, render_state_value.stencil_op D3DSTENCILOP.D3DSTENCILOP_KEEP),
        (D3DRENDERSTATETYPE.D3DRS_CCW_STENCILFUNC, render_state_value.D3DCMP_ALWAYS),
        (D3DRENDERSTATETYPE.D3DRS_COLORWRITEENABLE1, render_state_value.dword 0x0000000F),
        (D3DRENDERSTATETYPE.D3DRS_COLORWRITEENABLE2, render_state_value.dword 0x0000000F),
        (D3DRENDERSTATETYPE.D3DRS_COLORWRITEENABLE3, render_state_value.dword 0x0000000F),
        (D3DRENDERSTATETYPE.D3DRS_BLENDFACTOR, render_state_value.dword 0xFFFFFFFF),
        (D3DRENDERSTATETYPE.D3DRS_SRGBWRITEENABLE, bool_dword info.srgb_write_enable),
        (D3DRENDERSTATETYPE.D3DRS_SEPARATEALPHABLENDENABLE, bool_dword false),
        (D3DRENDERSTATETYPE.D3DRS_SRCBLENDALPHA, render_state_value.blend (literal_to_blend_func info.src_blend_alpha)),
        (D3DRENDERSTATETYPE.D3DRS_DESTBLENDALPHA, render_state_value.blend (literal_to_blend_func info.dest_blend_alpha)),
        (D3DRENDERSTATETYPE.D3DRS_BLENDOPALPHA, render_state_value.dword info.blend_op_alpha),
        (D3DRENDERSTATETYPE.D3DRS_FOGENABLE, bool_dword false),
        (D3DRENDERSTATETYPE.D3DRS_CULLMODE, render_state_value.D3DCULL_NONE),
        (D3DRENDERSTATETYPE.D3DRS_LIGHTING, bool_dword false) ] }

/-- The loop that unsets the samplers reading a texture: of the first
`sampler_count` slots, every slot whose texture is `tex` gets the null pointer. -/
def unset_samplers (tex : Nat) : Nat → List d3d9_sampler → List d3d9_sampler
  | 0, samplers => samplers
  | _ + 1, [] => []
  | sampler_count + 1, sampler :: rest =>
    (if sampler.texture = some tex then { sampler with texture := none } else sampler) ::
      unset_samplers tex sampler_count rest

/-- The text of the warning for a render target the device has no slot for. -/
def too_many_render_targets_message (env : d3d9_env) (pass_index : Nat) : String :=
  "device only supports " ++ Nat.repr env.NumSimultaneousRTs ++
    " simultaneous render targets, but pass '" ++ Nat.repr pass_index ++
    "' uses more, which are ignored"

/-- The loop `for (unsigned int i = 0; i < 8; ++i)` of `visit_technique` over the
render target names of one pass; `remaining` is `8 - i`. -/
def render_target_loop (env : d3d9_env) (info : pass_info) (pass_index : Nat) :
    Nat → Nat → d3d9_effect_compiler → d3d9_pass_data → loop_outcome d3d9_pass_data
  | 0, _, c, pass => loop_outcome.completed c pass
  | remaining + 1, i, c, pass =>
    let render_target := info.render_target_names.getD i ""
    if render_target == "" then
      render_target_loop env info pass_index remaining (i + 1) c pass
    else
      match find_texture c._runtime render_target with
      | none => loop_outcome.returned (error c "texture not found")
      | some texture =>
        if i > env.NumSimultaneousRTs then
          loop_outcome.completed (warning c (too_many_render_targets_message env pass_index)) pass
        else
          render_target_loop env info pass_index remaining (i + 1) c
            { pass with
              samplers := unset_samplers texture.impl.addr pass.sampler_count pass.samplers
              render_targets := pass.render_targets.set i texture.impl.surface }

/-- The pass object at the call of `BeginStateBlock`: shaders looked up, samplers
copied from the bindings, the resolved back buffer in render target slot 0. -/
def make_pass (c : d3d9_effect_compiler) (info : pass_info) : d3d9_pass_data :=
  let sampler_count := min 16 (c._sampler_bindings.length % 4294967296)
  { vertex_shader := map_lookup c.vs_entry_points info.vs_entry_point
    pixel_shader := map_lookup c.ps_entry_points info.ps_entry_point
    samplers := c._sampler_bindings.take sampler_count ++
      List.replicate (16 - sampler_count) d3d9_sampler.empty
    sampler_count := sampler_count
    stateblock := none
    clear_render_targets := info.clear_render_targets
    render_targets := (List.replicate 8 none).set 0 c._runtime._backbuffer_resolved }

/-- The pass after `EndStateBlock(&pass.stateblock)`: it holds the state block
recorded for it. -/
def end_stateblock (pass : d3d9_pass_data) (info : pass_info) : d3d9_pass_data :=
  { pass with stateblock := some (record_stateblock pass info) }

/-- The compiler after the two reads `vs_entry_points[...]` and
`ps_entry_points[...]` of a pass. -/
def touch_entry_points (c : d3d9_effect_compiler) (info : pass_info) : d3d9_effect_compiler :=
  { c with
    vs_entry_points := map_touch c.vs_entry_points info.vs_entry_point
    ps_entry_points := map_touch c.ps_entry_points info.ps_entry_point }

/-- The text of the error for a failed `BeginStateBlock`. -/
def stateblock_failed_message (hr : Int) : String :=
  "internal pass stateblock creation failed with error code " ++ hresult_to_string hr ++ "!"

/-- The loop of `visit_technique` over the passes of the technique. -/
def pass_loop (env : d3d9_env) (technique_name : String) :
    List pass_info → Nat → d3d9_effect_compiler → List d3d9_pass_data →
      loop_outcome (List d3d9_pass_data)
  | [], _, c, passes => loop_outcome.completed c passes
  | info :: rest, pass_index, c, passes =>
    let c1 := touch_entry_points c info
    let pass := make_pass c1 info
    if FAILED (env.BeginStateBlock technique_name pass_index) then
      loop_outcome.returned
        (error c1 (stateblock_failed_message (env.BeginStateBlock technique_name pass_index)))
    else
      match render_target_loop env info pass_index 8 0 c1 (end_stateblock pass info) with
      | loop_outcome.returned c2 => loop_outcome.returned c2
      | loop_outcome.completed c2 pass2 =>
        pass_loop env technique_name rest (pass_index + 1) c2 (passes ++ [pass2])

/-- The `technique` object before its passes are built. -/
def make_technique (c : d3d9_effect_compiler) (info : technique_info) : technique :=
  { name := info.name
    annotations := copy_annotations info.annotations []
    uniform_storage_index :=
      if c._constant_register_count != 0 then some c._constant_register_count else none
    uniform_storage_offset :=
      if c._constant_register_count != 0 then some c._uniform_storage_offset else none
    passes := [] }

/-- The member function `visit_technique`. -/
def visit_technique (env : d3d9_env) (c : d3d9_effect_compiler) (info : technique_info) :
    d3d9_effect_compiler :=
  match pass_loop env info.name info.passes 0 c [] with
  | loop_outcome.returned c1 => c1
  | loop_outcome.completed c1 passes =>
    { c1 with
      _runtime := add_technique c1._runtime { make_technique c info with passes := passes } }

/-! ## The run -/

/-- The text `run` appends when neither compiler library loads. -/
def unable_to_load_message : String :=
  "Unable to load D3DCompiler library. Make sure you have the DirectX end-user runtime (June 2010) installed or a newer version of the library in the application directory.\n"

/-- The member function `run`: its return value and the compiler after it. -/
def run (env : d3d9_env) (m : module) (c : d3d9_effect_compiler) :
    Bool × d3d9_effect_compiler :=
  if !(env.load_d3dcompiler_47 || env.load_d3dcompiler_43) then
    (false, { c with _errors := c._errors ++ unable_to_load_message })
  else
    let c := { c with _uniform_storage_offset := c._runtime.uniform_value_storage.length }
    let c := m.textures.foldl (visit_texture env) c
    let c := m.samplers.foldl (visit_sampler env) c
    let c := m.uniforms.foldl (visit_uniform env) c
    let c := m.entry_points.foldl
      (fun c entry => compile_entry_point env c m.hlsl entry.1 entry.2) c
    let c := m.techniques.foldl (visit_technique env) c
    (c._success, c)

/-! ## Notions used by the statements -/

/-- The compiler a loop ends with, however it ends. -/
def loop_outcome.state {α : Type} : loop_outcome α → d3d9_effect_compiler
  | loop_outcome.completed c _ => c
  | loop_outcome.returned c => c

/-- What an operation may do to the success flag: leave the flag and the number
of calls of `error` as they are, or end with the flag false after more calls of
`error`. -/
def flag_step (c c' : d3d9_effect_compiler) : Prop :=
  (c'._success = c._success ∧ c'.error_calls = c.error_calls) ∨
    (c'._success = false ∧ c.error_calls < c'.error_calls)

/-- What `visit_technique` leaves alone while it builds the passes. -/
def technique_frame (c c' : d3d9_effect_compiler) : Prop :=
  c'._runtime = c._runtime ∧ c'._uniform_storage_offset = c._uniform_storage_offset ∧
    c'._sampler_bindings = c._sampler_bindings ∧
    c'._constant_register_count = c._constant_register_count

/-- The error text only grows: the new text is the old text followed by `added`. -/
def errors_extended (c c' : d3d9_effect_compiler) (added : String) : Prop :=
  c'._errors = c._errors ++ added

/-! ## Concrete objects on which the statements are exercised -/

/-- A device that supports one render target and on which every call succeeds. -/
def example_env : d3d9_env :=
  { load_d3dcompiler_47 := true
    load_d3dcompiler_43 := false
    int_to_float := fun _ => 0
    uint_to_float := fun _ => 0
    max_zero_to_dword := fun _ => 0
    make_unique_tex_data := fun name => 100 + name.length
    update_texture_reference := fun obj _ => obj
    CheckDeviceFormat := fun _ _ => 0
    CreateTexture := fun _ _ _ _ _ => (0, 7)
    GetSurfaceLevel := fun handle => some (handle + 1)
    BeginStateBlock := fun _ _ => 0
    NumSimultaneousRTs := 1
    D3DCompile := fun _ _ _ => (0, none)
    CreatePixelShader := fun _ => (0, some 1)
    CreateVertexShader := fun _ => (0, some 2) }

/-- A 16 by 16 texture of one level with the given name, object address and surface. -/
def example_texture (unique_name : String) (addr surface : Nat) : texture :=
  { unique_name := unique_name
    effect_filename := "first.fx"
    annotations := []
    width := 16
    height := 16
    levels := 1
    format := texture_format.rgba8
    impl := { addr := addr, texture := some (surface + 1000), surface := some surface } }

/-- A runtime that owns the textures `A` and `B` and an empty uniform storage. -/
def example_runtime : d3d9_runtime :=
  { textures := [example_texture "A" 1 11, example_texture "B" 2 12]
    uniforms := []
    techniques := []
    uniform_value_storage := []
    _backbuffer_resolved := some 99 }

/-- A compiler that has just been constructed for `example_runtime`. -/
def example_compiler : d3d9_effect_compiler :=
  d3d9_effect_compiler.create example_runtime ""

/-- A texture declaration with the name `A` and other dimensions than the texture
the runtime owns. -/
def example_texture_info : texture_info :=
  { unique_name := "A"
    semantic := ""
    annotations := []
    width := 32
    height := 32
    levels := 1
    format := texture_format.rgba8 }

/-- A sampler of the texture `A` at binding 0. -/
def example_sampler_info : sampler_info :=
  { texture_name := "A"
    binding := 0
    address_u := 1
    address_v := 1
    address_w := 1
    filter := 21
    lod_bias := 0
    min_lod := 0
    srgb := false }

/-- A `float4x4[4]` uniform without initializer: 256 bytes at offset 0. -/
def example_uniform_info : uniform_info :=
  { name := "matrices"
    type := { base := type_base.t_float, rows := 4, cols := 4, array_length := 4 }
    size := 256
    offset := 0
    annotations := []
    has_initializer_value := false
    initializer_value := { words := [], string_data := "" } }

/-- A pass that renders to the given targets, with default states. -/
def example_pass_info (render_target_names : List String) : pass_info :=
  { render_target_names := render_target_names
    vs_entry_point := "VS"
    ps_entry_point := "PS"
    clear_render_targets := true
    srgb_write_enable := false
    blend_enable := false
    stencil_enable := false
    color_write_mask := 15
    stencil_read_mask := 255
    stencil_write_mask := 255
    blend_op := 1
    blend_op_alpha := 1
    src_blend := 1
    dest_blend := 0
    src_blend_alpha := 1
    dest_blend_alpha := 0
    stencil_comparison_func := 8
    stencil_reference_value := 0
    stencil_op_pass := 1
    stencil_op_fail := 1
    stencil_op_depth_fail := 1 }

/-- A technique of one pass that renders to the given targets. -/
def example_technique_info (render_target_names : List String) : technique_info :=
  { name := "T"
    passes := [example_pass_info render_target_names]
    annotations := [] }

/-- A module that declares the texture `A` again, with other dimensions. -/
def example_module : module :=
  { hlsl := ""
    textures := [example_texture_info]
    samplers := []
    uniforms := []
    entry_points := []
    techniques := [] }

/-- The compiler of the examples after the sampler of `A` has been visited. -/
def example_sampled_compiler : d3d9_effect_compiler :=
  visit_sampler example_env example_compiler example_sampler_info

/-- The pass that `visit_technique` builds from `example_sampled_compiler` for a
pass that renders to `A`: slot 0 of the samplers has lost its texture. -/
def example_registered_pass : d3d9_pass_data :=
  { vertex_shader := none
    pixel_shader := none
    samplers :=
      { states := [0, 1, 1, 1, 0, 2, 2, 2, 0, 0, 1, 0], texture := none } ::
        List.replicate 15 d3d9_sampler.empty
    sampler_count := 1
    stateblock :=
      some (record_stateblock (make_pass example_sampled_compiler (example_pass_info ["A"]))
        (example_pass_info ["A"]))
    clear_render_targets := true
    render_targets := [some 11, none, none, none, none, none, none, none] }

/-- The technique that `visit_technique` registers from `example_sampled_compiler`
for a technique of one pass that renders to `A`. -/
def example_registered_technique : technique :=
  { name := "T"
    annotations := []
    uniform_storage_index := none
    uniform_storage_offset := none
    passes := [example_registered_pass] }

/-! ## Auxiliary facts -/

theorem flag_step_refl (c : d3d9_effect_compiler) : flag_step c c :=
  Or.inl ⟨rfl, rfl⟩

theorem flag_step_trans {a b c : d3d9_effect_compiler} (h1 : flag_step a b) (h2 : flag_step b c) :
    flag_step a c := by
  unfold flag_step at *
  rcases h1 with ⟨h1s, h1e⟩ | ⟨h1s, h1e⟩ <;> rcases h2 with ⟨h2s, h2e⟩ | ⟨h2s, h2e⟩
  · exact Or.inl ⟨h2s.trans h1s, h2e.trans h1e⟩
  · exact Or.inr ⟨h2s, by omega⟩
  · exact Or.inr ⟨h2s.trans h1s, by omega⟩
  · exact Or.inr ⟨h2s, by omega⟩

theorem flag_step_error (c : d3d9_effect_compiler) (message : String) :
    flag_step c (error c message) :=
  Or.inr ⟨rfl, Nat.lt_succ_self _⟩

theorem flag_step_warning (c : d3d9_effect_compiler) (message : String) :
    flag_step c (warning c message) :=
  Or.inl ⟨rfl, rfl⟩

theorem flag_step_foldl {α : Type} (f : d3d9_effect_compiler → α → d3d9_effect_compiler)
    (hf : ∀ c a, flag_step c (f c a)) (l : List α) (c : d3d9_effect_compiler) :
    flag_step c (l.foldl f c) := by
  induction l generalizing c with
  | nil => exact flag_step_refl c
  | cons a l ih => exact flag_step_trans (hf c a) (ih (f c a))

theorem visit_texture_flag_step (env : d3d9_env) (c : d3d9_effect_compiler) (info : texture_info) :
    flag_step c (visit_texture env c info) := by
  unfold visit_texture
  split
  · split
    · exact flag_step_error _ _
    · exact flag_step_refl _
  · simp only []
    split_ifs
    · exact Or.inl ⟨rfl, rfl⟩
    · exact Or.inl ⟨rfl, rfl⟩
    · exact flag_step_error _ _
    all_goals first
      | exact flag_step_trans (flag_step_warning _ _) (flag_step_error _ _)
      | exact flag_step_error _ _
      | exact flag_step_trans (flag_step_warning _ _) (Or.inl ⟨rfl, rfl⟩)
      | exact Or.inl ⟨rfl, rfl⟩

theorem visit_sampler_flag_step (env : d3d9_env) (c : d3d9_effect_compiler) (info : sampler_info) :
    flag_step c (visit_sampler env c info) := by
  unfold visit_sampler
  split
  · exact flag_step_refl _
  · exact Or.inl ⟨rfl, rfl⟩

theorem visit_uniform_flag_step (env : d3d9_env) (c : d3d9_effect_compiler) (info : uniform_info) :
    flag_step c (visit_uniform env c info) :=
  Or.inl ⟨rfl, rfl⟩

theorem flag_step_ite {c x y : d3d9_effect_compiler} {b : Prop} [Decidable b]
    (hx : flag_step c x) (hy : flag_step c y) : flag_step c (if b then x else y) := by
  split <;> assumption

theorem append_compiler_output_flag_step (c : d3d9_effect_compiler) (text : Option String) :
    flag_step c (append_compiler_output c text) := by
  cases text <;> exact Or.inl ⟨rfl, rfl⟩

theorem store_shader_flag_step (c : d3d9_effect_compiler) (is_ps : Bool) (entry_point : String)
    (shader : Option Nat) : flag_step c (store_shader c is_ps entry_point shader) := by
  cases is_ps <;> exact Or.inl ⟨rfl, rfl⟩

theorem compile_entry_point_flag_step (env : d3d9_env) (c : d3d9_effect_compiler) (hlsl : String)
    (entry_point : String) (is_ps : Bool) :
    flag_step c (compile_entry_point env c hlsl entry_point is_ps) := by
  unfold compile_entry_point
  have h1 := append_compiler_output_flag_step c
    (env.D3DCompile hlsl entry_point (if is_ps then "ps_3_0" else "vs_3_0")).2
  exact flag_step_ite (flag_step_trans h1 (flag_step_error _ _))
    (flag_step_ite
      (flag_step_trans h1 (flag_step_trans (store_shader_flag_step _ _ _ _) (flag_step_error _ _)))
      (flag_step_trans h1 (store_shader_flag_step _ _ _ _)))

theorem render_target_loop_flag_step (env : d3d9_env) (info : pass_info) (pass_index : Nat)
    (remaining i : Nat) (c : d3d9_effect_compiler) (pass : d3d9_pass_data) :
    flag_step c (render_target_loop env info pass_index remaining i c pass).state := by
  induction remaining generalizing i c pass with
  | zero => exact flag_step_refl c
  | succ n ih =>
    unfold render_target_loop
    simp only []
    split
    · exact ih _ _ _
    · split
      · exact flag_step_error _ _
      · split
        · exact flag_step_warning _ _
        · exact ih _ _ _

theorem pass_loop_flag_step (env : d3d9_env) (technique_name : String) (infos : List pass_info)
    (pass_index : Nat) (c : d3d9_effect_compiler) (passes : List d3d9_pass_data) :
    flag_step c (pass_loop env technique_name infos pass_index c passes).state := by
  induction infos generalizing pass_index c passes with
  | nil => exact flag_step_refl c
  | cons info rest ih =>
    unfold pass_loop
    simp only []
    split
    · exact flag_step_trans (Or.inl ⟨rfl, rfl⟩) (flag_step_error _ _)
    · have h := render_target_loop_flag_step env info pass_index 8 0
        (touch_entry_points c info)
        (end_stateblock (make_pass (touch_entry_points c info) info) info)
      split
      · rename_i c2 heq
        rw [heq] at h
        exact flag_step_trans (Or.inl ⟨rfl, rfl⟩) h
      · rename_i c2 pass2 heq
        rw [heq] at h
        exact flag_step_trans (flag_step_trans (Or.inl ⟨rfl, rfl⟩) h) (ih _ _ _)

theorem visit_technique_flag_step (env : d3d9_env) (c : d3d9_effect_compiler)
    (info : technique_info) : flag_step c (visit_technique env c info) := by
  unfold visit_technique
  have h := pass_loop_flag_step env info.name info.passes 0 c []
  split
  · rename_i c1 heq
    rw [heq] at h
    exact h
  · rename_i c1 passes heq
    rw [heq] at h
    exact flag_step_trans h (Or.inl ⟨rfl, rfl⟩)

theorem run_flag_step (env : d3d9_env) (m : module) (c : d3d9_effect_compiler) :
    flag_step c (run env m c).2 := by
  unfold run
  split
  · exact Or.inl ⟨rfl, rfl⟩
  · simp only []
    have h0 : flag_step c
        { c with _uniform_storage_offset := c._runtime.uniform_value_storage.length } :=
      Or.inl ⟨rfl, rfl⟩
    have h1 := flag_step_foldl _ (visit_texture_flag_step env) m.textures
      { c with _uniform_storage_offset := c._runtime.uniform_value_storage.length }
    have h2 := flag_step_foldl _ (visit_sampler_flag_step env) m.samplers
      (m.textures.foldl (visit_texture env)
        { c with _uniform_storage_offset := c._runtime.uniform_value_storage.length })
    have h3 := flag_step_foldl _ (visit_uniform_flag_step env) m.uniforms
      (m.samplers.foldl (visit_sampler env) (m.textures.foldl (visit_texture env)
        { c with _uniform_storage_offset := c._runtime.uniform_value_storage.length }))
    have h4 := flag_step_foldl _
      (fun c entry => compile_entry_point_flag_step env c m.hlsl entry.1 entry.2) m.entry_points
      (m.uniforms.foldl (visit_uniform env) (m.samplers.foldl (visit_sampler env)
        (m.textures.foldl (visit_texture env)
          { c with _uniform_storage_offset := c._runtime.uniform_value_storage.length })))
    have h5 := flag_step_foldl _ (visit_technique_flag_step env) m.techniques
      (m.entry_points.foldl (fun c entry => compile_entry_point env c m.hlsl entry.1 entry.2)
        (m.uniforms.foldl (visit_uniform env) (m.samplers.foldl (visit_sampler env)
          (m.textures.foldl (visit_texture env)
            { c with _uniform_storage_offset := c._runtime.uniform_value_storage.length }))))
    exact flag_step_trans h0 (flag_step_trans h1 (flag_step_trans h2 (flag_step_trans h3
      (flag_step_trans h4 h5))))

theorem unset_samplers_length (tex : Nat) (n : Nat) (l : List d3d9_sampler) :
    (unset_samplers tex n l).length = l.length := by
  induction n generalizing l with
  | zero => rfl
  | succ n ih =>
    cases l with
    | nil => rfl
    | cons a l => simp [unset_samplers, ih]

theorem unset_samplers_getElem? (tex : Nat) (n : Nat) (l : List d3d9_sampler) (s : Nat) :
    (unset_samplers tex n l)[s]? =
      (l[s]?).map (fun smp =>
        if s < n ∧ smp.texture = some tex then { smp with texture := none } else smp) := by
  induction n generalizing l s with
  | zero => simp [unset_samplers]
  | succ n ih =>
    cases l with
    | nil => simp [unset_samplers]
    | cons a l =>
      cases s with
      | zero => simp [unset_samplers]
      | succ s => simp [unset_samplers, ih]

theorem unset_samplers_cleared (tex : Nat) (n : Nat) (l : List d3d9_sampler) (s : Nat)
    (smp : d3d9_sampler) (hs : s < n) (h : (unset_samplers tex n l)[s]? = some smp) :
    smp.texture ≠ some tex := by
  rw [unset_samplers_getElem?] at h
  cases hl : l[s]? with
  | none => simp [hl] at h
  | some x =>
    simp only [hl, Option.map_some', Option.some.injEq] at h
    by_cases hx : x.texture = some tex
    · simp only [hs, hx, and_self, if_true] at h
      rw [← h]
      simp
    · simp only [hx, and_false, if_false] at h
      rw [← h]
      exact hx

theorem unset_samplers_keeps_cleared (a tex : Nat) (n : Nat) (l : List d3d9_sampler)
    (hl : ∀ s smp, s < n → l[s]? = some smp → smp.texture ≠ some a)
    (s : Nat) (smp : d3d9_sampler) (hs : s < n) (h : (unset_samplers tex n l)[s]? = some smp) :
    smp.texture ≠ some a := by
  rw [unset_samplers_getElem?] at h
  cases hx : l[s]? with
  | none => simp [hx] at h
  | some x =>
    simp only [hx, Option.map_some', Option.some.injEq] at h
    have hxa := hl s x hs hx
    split at h
    · rw [← h]
      simp
    · rw [← h]
      exact hxa

theorem render_target_loop_outcome (env : d3d9_env) (info : pass_info) (pass_index : Nat)
    (remaining i : Nat) (c : d3d9_effect_compiler) (pass : d3d9_pass_data) :
    (∃ pass', render_target_loop env info pass_index remaining i c pass =
        loop_outcome.completed c pass') ∨
    (∃ pass', render_target_loop env info pass_index remaining i c pass =
        loop_outcome.completed (warning c (too_many_render_targets_message env pass_index)) pass') ∨
    render_target_loop env info pass_index remaining i c pass =
      loop_outcome.returned (error c "texture not found") := by
  induction remaining generalizing i pass with
  | zero => exact Or.inl ⟨pass, rfl⟩
  | succ n ih =>
    unfold render_target_loop
    simp only []
    split
    · exact ih _ _
    · split
      · exact Or.inr (Or.inr rfl)
      · split
        · exact Or.inr (Or.inl ⟨pass, rfl⟩)
        · exact ih _ _

theorem render_target_loop_missing (env : d3d9_env) (info : pass_info) (pass_index : Nat)
    (remaining i : Nat) (c : d3d9_effect_compiler) (pass : d3d9_pass_data) (j : Nat)
    (hij : i ≤ j) (hj : j < i + remaining)
    (hname : info.render_target_names.getD j "" ≠ "")
    (hmiss : find_texture c._runtime (info.render_target_names.getD j "") = none)
    (hbreak : ∀ k, i ≤ k → k < j → info.render_target_names.getD k "" ≠ "" →
      find_texture c._runtime (info.render_target_names.getD k "") ≠ none →
      k ≤ env.NumSimultaneousRTs) :
    render_target_loop env info pass_index remaining i c pass =
      loop_outcome.returned (error c "texture not found") := by
  induction remaining generalizing i pass with
  | zero => omega
  | succ n ih =>
    unfold render_target_loop
    simp only []
    by_cases hi : i = j
    · subst hi
      have h1 : (info.render_target_names.getD i "" == "") = false := by simpa using hname
      simp only [h1, hmiss]
      simp
    · have hlt : i < j := by omega
      have hrec : ∀ pass1, render_target_loop env info pass_index n (i + 1) c pass1 =
          loop_outcome.returned (error c "texture not found") := fun pass1 =>
        ih (i + 1) pass1 (by omega) (by omega) (fun k hk1 hk2 => hbreak k (by omega) hk2)
      split
      · exact hrec _
      · rename_i hne
        split
        · rfl
        · rename_i tex htex
          have hle := hbreak i (le_refl i) hlt (by simpa using hne)
            (by rw [htex]; exact Option.some_ne_none _)
          have : ¬ i > env.NumSimultaneousRTs := by omega
          simp only [this, if_false]
          exact hrec _

theorem render_target_loop_keeps (env : d3d9_env) (info : pass_info) (pass_index : Nat)
    (remaining i : Nat) (c c' : d3d9_effect_compiler) (pass pass' : d3d9_pass_data)
    (h : render_target_loop env info pass_index remaining i c pass =
      loop_outcome.completed c' pass') :
    pass'.sampler_count = pass.sampler_count ∧
    pass'.samplers.length = pass.samplers.length ∧
    pass'.render_targets.length = pass.render_targets.length ∧
    pass'.clear_render_targets = pass.clear_render_targets ∧
    pass'.stateblock = pass.stateblock ∧
    pass'.vertex_shader = pass.vertex_shader ∧
    pass'.pixel_shader = pass.pixel_shader ∧
    (∀ a, (∀ s smp, s < pass.sampler_count → pass.samplers[s]? = some smp →
        smp.texture ≠ some a) →
      ∀ s smp, s < pass'.sampler_count → pass'.samplers[s]? = some smp →
        smp.texture ≠ some a) ∧
    (∀ j, j < i → pass'.render_targets[j]? = pass.render_targets[j]?) := by
  induction remaining generalizing i pass with
  | zero =>
    simp only [render_target_loop, loop_outcome.completed.injEq] at h
    obtain ⟨-, rfl⟩ := h
    exact ⟨rfl, rfl, rfl, rfl, rfl, rfl, rfl, fun _ ha => ha, fun _ _ => rfl⟩
  | succ n ih =>
    unfold render_target_loop at h
    simp only [] at h
    split at h
    · obtain ⟨h1, h2, h3, h4, h5, h6, h7, h8, h9⟩ := ih (i + 1) pass h
      exact ⟨h1, h2, h3, h4, h5, h6, h7, h8, fun j hj => h9 j (by omega)⟩
    · split at h
      · exact absurd h (by simp)
      · rename_i tex htex
        split at h
        · simp only [loop_outcome.completed.injEq] at h
          obtain ⟨-, rfl⟩ := h
          exact ⟨rfl, rfl, rfl, rfl, rfl, rfl, rfl, fun _ ha => ha, fun _ _ => rfl⟩
        · obtain ⟨h1, h2, h3, h4, h5, h6, h7, h8, h9⟩ := ih (i + 1) _ h
          refine ⟨h1, ?_, ?_, h4, h5, h6, h7, ?_, ?_⟩
          · rw [h2]
            exact unset_samplers_length _ _ _
          · rw [h3]
            simp
          · intro a ha
            exact h8 a (fun s smp hs hsmp =>
              unset_samplers_keeps_cleared a _ _ _ ha s smp hs hsmp)
          · intro j hj
            rw [h9 j (by omega)]
            simp only [List.getElem?_set]
            have : i ≠ j := by omega
            simp [this]

theorem render_target_loop_binds (env : d3d9_env) (info : pass_info) (pass_index : Nat)
    (remaining i : Nat) (c c' : d3d9_effect_compiler) (pass pass' : d3d9_pass_data)
    (h : render_target_loop env info pass_index remaining i c pass =
      loop_outcome.completed c' pass')
    (j : Nat) (tex : texture) (hij : i ≤ j) (hj : j < i + remaining)
    (hlen : j < pass.render_targets.length)
    (hname : info.render_target_names.getD j "" ≠ "")
    (hfound : find_texture c._runtime (info.render_target_names.getD j "") = some tex)
    (hcaps : j ≤ env.NumSimultaneousRTs) :
    pass'.render_targets[j]? = some tex.impl.surface ∧
    ∀ s smp, s < pass'.sampler_count → pass'.samplers[s]? = some smp →
      smp.texture ≠ some tex.impl.addr := by
  induction remaining generalizing i pass with
  | zero => omega
  | succ n ih =>
    unfold render_target_loop at h
    simp only [] at h
    split at h
    · rename_i hempty
      have hne : i ≠ j := by
        intro hi
        subst hi
        exact hname (by simpa using hempty)
      exact ih (i + 1) pass h (by omega) (by omega) hlen
    · split at h
      · exact absurd h (by simp)
      · rename_i tex1 htex1
        split at h
        · rename_i hgt
          omega
        · by_cases hi : i = j
          · subst hi
            rw [hfound] at htex1
            cases htex1
            obtain ⟨h1, -, -, -, -, -, -, h8, h9⟩ :=
              render_target_loop_keeps env info pass_index n (i + 1) c c' _ pass' h
            constructor
            · rw [h9 i (by omega)]
              simp [hlen]
            · exact h8 tex.impl.addr (fun s smp hs hsmp =>
                unset_samplers_cleared _ _ _ s smp hs hsmp)
          · exact ih (i + 1) _ h (by omega) (by omega) (by simpa using hlen)


theorem technique_frame_refl (c : d3d9_effect_compiler) : technique_frame c c :=
  ⟨rfl, rfl, rfl, rfl⟩

theorem technique_frame_trans {a b c : d3d9_effect_compiler} (h1 : technique_frame a b)
    (h2 : technique_frame b c) : technique_frame a c :=
  ⟨h2.1.trans h1.1, h2.2.1.trans h1.2.1, h2.2.2.1.trans h1.2.2.1, h2.2.2.2.trans h1.2.2.2⟩

theorem pass_loop_returned (env : d3d9_env) (technique_name : String) (infos : List pass_info)
    (pass_index : Nat) (c c' : d3d9_effect_compiler) (passes : List d3d9_pass_data)
    (h : pass_loop env technique_name infos pass_index c passes = loop_outcome.returned c') :
    technique_frame c c' ∧ c'._success = false ∧ c'.error_calls = c.error_calls + 1 := by
  induction infos generalizing pass_index c passes with
  | nil => simp [pass_loop] at h
  | cons info rest ih =>
    unfold pass_loop at h
    simp only [] at h
    split at h
    · simp only [loop_outcome.returned.injEq] at h
      subst h
      exact ⟨⟨rfl, rfl, rfl, rfl⟩, rfl, rfl⟩
    · rcases render_target_loop_outcome env info pass_index 8 0 (touch_entry_points c info)
        (end_stateblock (make_pass (touch_entry_points c info) info) info) with
        ⟨p, hp⟩ | ⟨p, hp⟩ | hp
      · rw [hp] at h
        simp only [] at h
        obtain ⟨h1, h2, h3⟩ := ih _ _ _ h
        exact ⟨technique_frame_trans ⟨rfl, rfl, rfl, rfl⟩ h1, h2, h3⟩
      · rw [hp] at h
        simp only [] at h
        obtain ⟨h1, h2, h3⟩ := ih _ _ _ h
        exact ⟨technique_frame_trans ⟨rfl, rfl, rfl, rfl⟩ h1, h2, h3⟩
      · rw [hp] at h
        simp only [loop_outcome.returned.injEq] at h
        subst h
        exact ⟨⟨rfl, rfl, rfl, rfl⟩, rfl, rfl⟩

theorem pass_loop_completed (env : d3d9_env) (technique_name : String) (infos : List pass_info)
    (pass_index : Nat) (c c' : d3d9_effect_compiler) (passes passes' : List d3d9_pass_data)
    (h : pass_loop env technique_name infos pass_index c passes =
      loop_outcome.completed c' passes') :
    technique_frame c c' ∧ c'._success = c._success ∧ c'.error_calls = c.error_calls ∧
    ∃ built, passes' = passes ++ built ∧
      List.Forall₂
        (fun pinfo pass => ∃ idx c1 c2, technique_frame c c1 ∧
          render_target_loop env pinfo idx 8 0 c1 (end_stateblock (make_pass c1 pinfo) pinfo) =
            loop_outcome.completed c2 pass)
        infos built := by
  induction infos generalizing pass_index c passes with
  | nil =>
    simp only [pass_loop, loop_outcome.completed.injEq] at h
    obtain ⟨rfl, rfl⟩ := h
    exact ⟨technique_frame_refl _, rfl, rfl, [], by simp, List.Forall₂.nil⟩
  | cons info rest ih =>
    unfold pass_loop at h
    simp only [] at h
    split at h
    · exact absurd h (by simp)
    · have hframe : technique_frame c (touch_entry_points c info) := ⟨rfl, rfl, rfl, rfl⟩
      rcases render_target_loop_outcome env info pass_index 8 0 (touch_entry_points c info)
        (end_stateblock (make_pass (touch_entry_points c info) info) info) with
        ⟨p, hp⟩ | ⟨p, hp⟩ | hp
      · rw [hp] at h
        simp only [] at h
        obtain ⟨h1, h2, h3, built, h4, h5⟩ := ih _ _ _ h
        refine ⟨technique_frame_trans hframe h1, h2, h3, p :: built, by simp [h4], ?_⟩
        refine List.Forall₂.cons ⟨pass_index, _, _, hframe, hp⟩ ?_
        exact h5.imp (fun _ _ ⟨idx, c1, c2, hf, hl⟩ =>
          ⟨idx, c1, c2, technique_frame_trans hframe hf, hl⟩)
      · rw [hp] at h
        simp only [] at h
        obtain ⟨h1, h2, h3, built, h4, h5⟩ := ih _ _ _ h
        have hframe2 : technique_frame c
            (warning (touch_entry_points c info) (too_many_render_targets_message env pass_index)) :=
          ⟨rfl, rfl, rfl, rfl⟩
        refine ⟨technique_frame_trans hframe2 h1, h2, h3, p :: built, by simp [h4], ?_⟩
        refine List.Forall₂.cons ⟨pass_index, _, _, hframe, hp⟩ ?_
        exact h5.imp (fun _ _ ⟨idx, c1, c2, hf, hl⟩ =>
          ⟨idx, c1, c2, technique_frame_trans hframe2 hf, hl⟩)
      · rw [hp] at h
        exact absurd h (by simp)

theorem pass_loop_missing (env : d3d9_env) (technique_name : String) (infos : List pass_info)
    (pass_index : Nat) (c : d3d9_effect_compiler) (passes : List d3d9_pass_data)
    (p : Nat) (pinfo : pass_info) (j : Nat)
    (hp : infos[p]? = some pinfo)
    (hbegin : ∀ k, k ≤ p → FAILED (env.BeginStateBlock technique_name (pass_index + k)) = false)
    (hj : j < 8)
    (hname : pinfo.render_target_names.getD j "" ≠ "")
    (hmiss : find_texture c._runtime (pinfo.render_target_names.getD j "") = none)
    (hbreak : ∀ k, k < j → pinfo.render_target_names.getD k "" ≠ "" →
      find_texture c._runtime (pinfo.render_target_names.getD k "") ≠ none →
      k ≤ env.NumSimultaneousRTs) :
    ∃ c1 added, pass_loop env technique_name infos pass_index c passes =
        loop_outcome.returned (error c1 "texture not found") ∧
      technique_frame c c1 ∧ errors_extended c c1 added ∧
      c1._success = c._success ∧ c1.error_calls = c.error_calls := by
  induction infos generalizing p pass_index c passes with
  | nil => simp at hp
  | cons info rest ih =>
    have hb0 : FAILED (env.BeginStateBlock technique_name pass_index) = false := by
      simpa using hbegin 0 (Nat.zero_le _)
    unfold pass_loop
    simp only [hb0]
    cases p with
    | zero =>
      simp only [List.getElem?_cons_zero, Option.some.injEq] at hp
      subst hp
      have hl := render_target_loop_missing env info pass_index 8 0 (touch_entry_points c info)
        (end_stateblock (make_pass (touch_entry_points c info) info) info) j (Nat.zero_le _)
        (by omega) hname hmiss (fun k _ hk => hbreak k hk)
      rw [hl]
      exact ⟨touch_entry_points c info, "", by simp, ⟨rfl, rfl, rfl, rfl⟩,
        by simp [errors_extended, touch_entry_points], rfl, rfl⟩
    | succ p =>
      simp only [List.getElem?_cons_succ] at hp
      have hbegin1 : ∀ k, k ≤ p →
          FAILED (env.BeginStateBlock technique_name (pass_index + 1 + k)) = false := by
        intro k hk
        have := hbegin (k + 1) (by omega)
        rwa [show pass_index + (k + 1) = pass_index + 1 + k by omega] at this
      rcases render_target_loop_outcome env info pass_index 8 0 (touch_entry_points c info)
        (end_stateblock (make_pass (touch_entry_points c info) info) info) with
        ⟨q, hq⟩ | ⟨q, hq⟩ | hq
      · rw [hq]
        simp only []
        obtain ⟨c1, added, h1, h2, h3, h4, h5⟩ :=
          ih (pass_index + 1) (touch_entry_points c info) (passes ++ [q]) p hp hbegin1 hmiss hbreak
        exact ⟨c1, added, h1, technique_frame_trans ⟨rfl, rfl, rfl, rfl⟩ h2, h3, h4, h5⟩
      · rw [hq]
        simp only []
        obtain ⟨c1, added, h1, h2, h3, h4, h5⟩ :=
          ih (pass_index + 1)
            (warning (touch_entry_points c info) (too_many_render_targets_message env pass_index))
            (passes ++ [q]) p hp hbegin1 hmiss hbreak
        refine ⟨c1, ("warning: " ++ too_many_render_targets_message env pass_index ++ "\n") ++ added,
          h1, technique_frame_trans ⟨rfl, rfl, rfl, rfl⟩ h2, ?_, h4, h5⟩
        unfold errors_extended at h3 ⊢
        rw [h3]
        simp [warning, touch_entry_points, String.append_assoc]
      · rw [hq]
        exact ⟨touch_entry_points c info, "", by simp, ⟨rfl, rfl, rfl, rfl⟩,
          by simp [errors_extended, touch_entry_points], rfl, rfl⟩

theorem store_bytes_length (bytes : List Nat) (storage : List Nat) (offset : Nat) :
    (store_bytes storage offset bytes).length = storage.length := by
  induction bytes generalizing storage offset with
  | nil => rfl
  | cons b bs ih => simp [store_bytes, ih]

theorem memset_length (storage : List Nat) (offset value count : Nat) :
    (memset storage offset value count).length = storage.length :=
  store_bytes_length _ _ _

theorem write_initializer_length (env : d3d9_env) (info : uniform_info)
    (storage_offset storage_size : Nat) (storage : List Nat) :
    (write_initializer env info storage_offset storage_size storage).length = storage.length := by
  unfold write_initializer
  generalize List.range (storage_size / 4) = l
  induction l generalizing storage with
  | nil => rfl
  | cons i l ih =>
    simp only [List.foldl_cons]
    rw [ih]
    split <;> simp [store_bytes_length]

theorem vector_resize_length {α : Type} (v : List α) (n : Nat) (fresh : α) :
    (vector_resize v n fresh).length = n := by
  simp [vector_resize]
  omega

theorem visit_uniform_storage_length (env : d3d9_env) (c : d3d9_effect_compiler)
    (info : uniform_info) :
    (visit_uniform env c info)._runtime.uniform_value_storage.length =
      (grow_storage (make_uniform c info) c._runtime.uniform_value_storage).length := by
  unfold visit_uniform
  simp only [add_uniform]
  split
  · exact write_initializer_length _ _ _ _ _
  · exact memset_length _ _ _ _

theorem flag_step_false {a b : d3d9_effect_compiler} (h : flag_step a b)
    (ha : a._success = false) : b._success = false := by
  rcases h with ⟨h1, -⟩ | ⟨h1, -⟩
  · rw [h1, ha]
  · exact h1

theorem run_loaded (env : d3d9_env) (m : module) (c : d3d9_effect_compiler)
    (hload : (env.load_d3dcompiler_47 || env.load_d3dcompiler_43) = true) :
    run env m c =
      ((m.techniques.foldl (visit_technique env)
        (m.entry_points.foldl (fun c entry => compile_entry_point env c m.hlsl entry.1 entry.2)
          (m.uniforms.foldl (visit_uniform env)
            (m.samplers.foldl (visit_sampler env)
              (m.textures.foldl (visit_texture env)
                { c with _uniform_storage_offset :=
                  c._runtime.uniform_value_storage.length })))))._success,
       m.techniques.foldl (visit_technique env)
        (m.entry_points.foldl (fun c entry => compile_entry_point env c m.hlsl entry.1 entry.2)
          (m.uniforms.foldl (visit_uniform env)
            (m.samplers.foldl (visit_sampler env)
              (m.textures.foldl (visit_texture env)
                { c with _uniform_storage_offset :=
                  c._runtime.uniform_value_storage.length }))))) := by
  unfold run
  simp [hload]

theorem run_not_loaded (env : d3d9_env) (m : module) (c : d3d9_effect_compiler)
    (hload : (env.load_d3dcompiler_47 || env.load_d3dcompiler_43) = false) :
    run env m c = (false, { c with _errors := c._errors ++ unable_to_load_message }) := by
  unfold run
  simp [hload]

theorem run_result_flag (env : d3d9_env) (m : module) (c : d3d9_effect_compiler)
    (hload : (env.load_d3dcompiler_47 || env.load_d3dcompiler_43) = true) :
    (run env m c).1 = (run env m c).2._success := by
  rw [run_loaded env m c hload]

theorem run_false_of_flag_false (env : d3d9_env) (m : module) (c : d3d9_effect_compiler)
    (hc : c._success = false) : (run env m c).1 = false ∧ (run env m c).2._success = false := by
  have h2 := flag_step_false (run_flag_step env m c) hc
  refine ⟨?_, h2⟩
  cases hload : (env.load_d3dcompiler_47 || env.load_d3dcompiler_43)
  · rw [run_not_loaded env m c hload]
  · rw [run_result_flag env m c hload]
    exact h2

theorem visit_texture_existing (env : d3d9_env) (c : d3d9_effect_compiler) (info : texture_info)
    (existing : texture) (h : find_texture c._runtime info.unique_name = some existing) :
    visit_texture env c info =
      if texture_mismatch existing info then error c (texture_mismatch_message existing)
      else c := by
  unfold visit_texture
  rw [h]

theorem forall2_getElem {α β : Type} {R : α → β → Prop} {l1 : List α} {l2 : List β}
    (h : List.Forall₂ R l1 l2) (k : Nat) (a : α) (b : β)
    (ha : l1[k]? = some a) (hb : l2[k]? = some b) : R a b := by
  induction h generalizing k with
  | nil => simp at ha
  | cons hab _ ih =>
    cases k with
    | zero =>
      simp only [List.getElem?_cons_zero, Option.some.injEq] at ha hb
      subst ha
      subst hb
      exact hab
    | succ k =>
      simp only [List.getElem?_cons_succ] at ha hb
      exact ih k ha hb

theorem visit_technique_registered (env : d3d9_env) (c : d3d9_effect_compiler)
    (info : technique_info) (tech : technique)
    (hreg : (visit_technique env c info)._runtime.techniques = c._runtime.techniques ++ [tech]) :
    ∃ c1, pass_loop env info.name info.passes 0 c [] = loop_outcome.completed c1 tech.passes ∧
      tech.name = info.name := by
  unfold visit_technique at hreg
  split at hreg
  · rename_i c1 heq
    obtain ⟨⟨h1, -, -, -⟩, -, -⟩ := pass_loop_returned env _ _ _ _ _ _ heq
    rw [h1] at hreg
    simp at hreg
  · rename_i c1 passes heq
    obtain ⟨⟨h1, -, -, -⟩, -, -, -⟩ := pass_loop_completed env _ _ _ _ _ _ _ heq
    simp only [add_technique, h1, List.append_cancel_left_eq, List.cons.injEq, and_true] at hreg
    subst hreg
    exact ⟨c1, heq, rfl⟩

theorem make_pass_shape (c : d3d9_effect_compiler) (info : pass_info) :
    (end_stateblock (make_pass c info) info).render_targets.length = 8 ∧
    (end_stateblock (make_pass c info) info).samplers.length = 16 ∧
    (end_stateblock (make_pass c info) info).sampler_count =
      min 16 (c._sampler_bindings.length % 4294967296) := by
  refine ⟨by simp [end_stateblock, make_pass], ?_, rfl⟩
  simp only [end_stateblock, make_pass, List.length_append, List.length_take,
    List.length_replicate]
  omega

theorem record_stateblock_congr (p q : d3d9_pass_data) (info : pass_info)
    (hv : p.vertex_shader = q.vertex_shader) (hp : p.pixel_shader = q.pixel_shader) :
    record_stateblock p info = record_stateblock q info := by
  unfold record_stateblock
  rw [hv, hp]

theorem render_target_loop_untouched (env : d3d9_env) (info : pass_info) (pass_index : Nat)
    (remaining i : Nat) (c c' : d3d9_effect_compiler) (pass pass' : d3d9_pass_data)
    (h : render_target_loop env info pass_index remaining i c pass =
      loop_outcome.completed c' pass')
    (j : Nat)
    (hj : info.render_target_names.getD j "" = "" ∨ env.NumSimultaneousRTs < j) :
    pass'.render_targets[j]? = pass.render_targets[j]? := by
  induction remaining generalizing i pass with
  | zero =>
    simp only [render_target_loop, loop_outcome.completed.injEq] at h
    obtain ⟨-, rfl⟩ := h
    rfl
  | succ n ih =>
    unfold render_target_loop at h
    simp only [] at h
    split at h
    · exact ih (i + 1) pass h
    · rename_i hne
      split at h
      · exact absurd h (by simp)
      · split at h
        · simp only [loop_outcome.completed.injEq] at h
          obtain ⟨-, rfl⟩ := h
          rfl
        · rename_i hle
          rw [ih (i + 1) _ h]
          have hij : i ≠ j := by
            intro hij
            subst hij
            rcases hj with hj | hj
            · exact hne (by simpa using hj)
            · omega
          simp only [List.getElem?_set]
          simp [hij]

theorem run_true_iff_no_error_call (env : d3d9_env) (m : module) (c : d3d9_effect_compiler)
    (hload : (env.load_d3dcompiler_47 || env.load_d3dcompiler_43) = true)
    (hc : c._success = true) :
    ((run env m c).1 = true ↔ (run env m c).2.error_calls = c.error_calls) := by
  rw [run_result_flag env m c hload]
  rcases run_flag_step env m c with ⟨h1, h2⟩ | ⟨h1, h2⟩
  · rw [h1, hc, h2]
    simp
  · rw [h1]
    constructor
    · intro h
      exact absurd h (by simp)
    · intro h
      omega

/-! ## The properties -/

/-- Claim C1. Textures are deduplicated by name: when `find_texture` finds a texture
with the unique name of `info`, `visit_texture` adds no texture and leaves the
texture list of the runtime (indeed the whole runtime) as it was, whatever the
dimensions, the format and the semantic of `info` are; the name still finds the
same texture, with the same width, height, levels and format. -/
theorem visit_texture_existing_keeps_textures (env : d3d9_env) (c : d3d9_effect_compiler)
    (info : texture_info) (existing : texture)
    (h : find_texture c._runtime info.unique_name = some existing) :
    (visit_texture env c info)._runtime.textures = c._runtime.textures ∧
    (visit_texture env c info)._runtime = c._runtime ∧
    find_texture (visit_texture env c info)._runtime info.unique_name = some existing := by
  rw [visit_texture_existing env c info existing h]
  split
  · exact ⟨rfl, rfl, h⟩
  · exact ⟨rfl, rfl, h⟩

/-- Claim C1 on the runtime of the examples: the texture `A` is declared again with
other dimensions. -/
theorem visit_texture_existing_keeps_textures_witness :
    (visit_texture example_env example_compiler example_texture_info)._runtime.textures =
      example_compiler._runtime.textures ∧
    (visit_texture example_env example_compiler example_texture_info)._runtime =
      example_compiler._runtime ∧
    find_texture (visit_texture example_env example_compiler example_texture_info)._runtime
      example_texture_info.unique_name = some (example_texture "A" 1 11) :=
  visit_texture_existing_keeps_textures example_env example_compiler example_texture_info
    (example_texture "A" 1 11) (by decide)

/-- Claim C2. A texture bound as both input sampler and output render target has its
sampler slot cleared. Let `visit_technique` register the technique `tech`, let
`pass` be its pass `k`, built from `pinfo`, and let slot `i` be bound from the
names of the pass: the name at index `i < 8` is not empty, `find_texture` finds
`tex` for it, and the loop does not leave at `i` (`i ≤ NumSimultaneousRTs`, the
test of the source). Then render target slot `i` of the pass holds the surface of
`tex`, and no sampler slot below `sampler_count` refers to `tex` any more. The pass
has sixteen sampler slots and `sampler_count = min(16, DWORD(bindings.size()))`.
These are all the slots bound from the names: a slot whose name is empty or whose
index is above `NumSimultaneousRTs` holds what it held before the loop (the
resolved back buffer in slot 0, nothing in the other slots). -/
theorem visit_technique_unsets_samplers (env : d3d9_env) (c : d3d9_effect_compiler)
    (info : technique_info) (tech : technique)
    (hreg : (visit_technique env c info)._runtime.techniques = c._runtime.techniques ++ [tech])
    (k : Nat) (pinfo : pass_info) (pass : d3d9_pass_data)
    (hk : info.passes[k]? = some pinfo) (hpass : tech.passes[k]? = some pass)
    (i : Nat) (tex : texture) (hi : i < 8)
    (hname : pinfo.render_target_names.getD i "" ≠ "")
    (hfound : find_texture c._runtime (pinfo.render_target_names.getD i "") = some tex)
    (hcaps : i ≤ env.NumSimultaneousRTs) :
    pass.render_targets[i]? = some tex.impl.surface ∧
    pass.samplers.length = 16 ∧
    pass.sampler_count = min 16 (c._sampler_bindings.length % 4294967296) ∧
    (∀ s smp, s < pass.sampler_count → pass.samplers[s]? = some smp →
      smp.texture ≠ some tex.impl.addr) ∧
    (∀ j, (pinfo.render_target_names.getD j "" = "" ∨ env.NumSimultaneousRTs < j) →
      pass.render_targets[j]? =
        ((List.replicate 8 none).set 0 c._runtime._backbuffer_resolved)[j]?) := by
  obtain ⟨c1, hloop, -⟩ := visit_technique_registered env c info tech hreg
  obtain ⟨-, -, -, built, hbuilt, hall⟩ := pass_loop_completed env _ _ _ _ _ _ _ hloop
  simp only [List.nil_append] at hbuilt
  subst hbuilt
  obtain ⟨idx, c2, c3, hframe, hrt⟩ := forall2_getElem hall k pinfo pass hk hpass
  obtain ⟨hs1, hs2, hs3⟩ := make_pass_shape c2 pinfo
  obtain ⟨hcount, hlen, -, -, -, -, -, -, -⟩ :=
    render_target_loop_keeps env pinfo idx 8 0 c2 c3 _ pass hrt
  obtain ⟨hb1, hb2⟩ := render_target_loop_binds env pinfo idx 8 0 c2 c3 _ pass hrt i tex
    (Nat.zero_le _) (by omega) (by rw [hs1]; exact hi) hname (by rw [hframe.1]; exact hfound) hcaps
  refine ⟨hb1, by rw [hlen, hs2], ?_, hb2, ?_⟩
  · rw [hcount, hs3, hframe.2.2.1]
  · intro j hj
    rw [render_target_loop_untouched env pinfo idx 8 0 c2 c3 _ pass hrt j hj]
    simp only [end_stateblock, make_pass, hframe.1]

/-- Claim C2 on the examples: the sampler at binding 0 reads `A` before the
technique is visited, the technique renders to `A`, and the registered pass has
`A` in render target slot 0 and no sampler that reads it. -/
theorem visit_technique_unsets_samplers_witness :
    (example_sampled_compiler._sampler_bindings.map (fun sampler => sampler.texture) =
      [some (example_texture "A" 1 11).impl.addr]) ∧
    (example_registered_pass.render_targets[0]? = some (example_texture "A" 1 11).impl.surface ∧
      example_registered_pass.samplers.length = 16 ∧
      example_registered_pass.sampler_count =
        min 16 (example_sampled_compiler._sampler_bindings.length % 4294967296) ∧
      (∀ s smp, s < example_registered_pass.sampler_count →
        example_registered_pass.samplers[s]? = some smp →
        smp.texture ≠ some (example_texture "A" 1 11).impl.addr) ∧
      (∀ j, ((example_pass_info ["A"]).render_target_names.getD j "" = "" ∨
          example_env.NumSimultaneousRTs < j) →
        example_registered_pass.render_targets[j]? =
          ((List.replicate 8 none).set 0
            example_sampled_compiler._runtime._backbuffer_resolved)[j]?)) :=
  ⟨by decide,
    visit_technique_unsets_samplers example_env example_sampled_compiler
      (example_technique_info ["A"]) example_registered_technique (by decide)
      0 (example_pass_info ["A"]) example_registered_pass rfl rfl
      0 (example_texture "A" 1 11) (by decide) (by decide) (by decide) (by decide)⟩

/-- Claim C4 at a failing input. The storage is empty and the uniform is 256 bytes at
offset 0 without initializer: `visit_uniform` registers it with `storage_offset = 0`
and `storage_size = 256`, the storage has grown once, to 128 bytes, and
`storage_offset + storage_size ≤ size` does not hold, so the zero fill of 256 bytes
from offset 0 runs past the end of the storage. -/
theorem visit_uniform_storage_too_small :
    (visit_uniform example_env example_compiler example_uniform_info)._runtime.uniforms =
      [make_uniform example_compiler example_uniform_info] ∧
    (make_uniform example_compiler example_uniform_info).storage_offset = 0 ∧
    (make_uniform example_compiler example_uniform_info).storage_size = 256 ∧
    (visit_uniform example_env example_compiler
      example_uniform_info)._runtime.uniform_value_storage.length = 128 ∧
    ¬ ((make_uniform example_compiler example_uniform_info).storage_offset +
        (make_uniform example_compiler example_uniform_info).storage_size ≤
      (visit_uniform example_env example_compiler
        example_uniform_info)._runtime.uniform_value_storage.length) := by
  have hlen : (visit_uniform example_env example_compiler
      example_uniform_info)._runtime.uniform_value_storage.length = 128 := by
    rw [visit_uniform_storage_length]
    simp [grow_storage, vector_resize_length, example_compiler, d3d9_effect_compiler.create,
      example_runtime]
  refine ⟨rfl, rfl, rfl, hlen, ?_⟩
  rw [hlen]
  decide

/-- Claim C6 at a failing input. The device supports one render target
(`NumSimultaneousRTs = 1`) and the pass names the existing textures `A` and `B` at
indices 0 and 1: `visit_technique` binds the surface of `B` in slot 1, which is
not below 1, and records no warning. -/
theorem visit_technique_binds_slot_at_device_limit :
    example_env.NumSimultaneousRTs = 1 ∧
    (visit_technique example_env example_compiler
      (example_technique_info ["A", "B"]))._runtime.techniques.map
        (fun tech => tech.passes.map (fun pass => pass.render_targets)) =
      [[[some 11, some 12, none, none, none, none, none, none]]] ∧
    (visit_technique example_env example_compiler
      (example_technique_info ["A", "B"]))._errors = "" := by
  decide

/-- Claim C7. `literal_to_blend_func` maps the codes 0 to 9 to ZERO, ONE, SRCCOLOR,
SRCALPHA, INVSRCCOLOR, INVSRCALPHA, DESTALPHA, INVDESTALPHA, DESTCOLOR and
INVDESTCOLOR, it is one-to-one on the codes 0 to 9, and it maps every code above 9
to ONE. -/
theorem literal_to_blend_func_table :
    literal_to_blend_func 0 = D3DBLEND.D3DBLEND_ZERO ∧
    literal_to_blend_func 1 = D3DBLEND.D3DBLEND_ONE ∧
    literal_to_blend_func 2 = D3DBLEND.D3DBLEND_SRCCOLOR ∧
    literal_to_blend_func 3 = D3DBLEND.D3DBLEND_SRCALPHA ∧
    literal_to_blend_func 4 = D3DBLEND.D3DBLEND_INVSRCCOLOR ∧
    literal_to_blend_func 5 = D3DBLEND.D3DBLEND_INVSRCALPHA ∧
    literal_to_blend_func 6 = D3DBLEND.D3DBLEND_DESTALPHA ∧
    literal_to_blend_func 7 = D3DBLEND.D3DBLEND_INVDESTALPHA ∧
    literal_to_blend_func 8 = D3DBLEND.D3DBLEND_DESTCOLOR ∧
    literal_to_blend_func 9 = D3DBLEND.D3DBLEND_INVDESTCOLOR ∧
    (∀ a, a ≤ 9 → ∀ b, b ≤ 9 → literal_to_blend_func a = literal_to_blend_func b → a = b) ∧
    (∀ value, 9 < value → literal_to_blend_func value = D3DBLEND.D3DBLEND_ONE) := by
  refine ⟨rfl, rfl, rfl, rfl, rfl, rfl, rfl, rfl, rfl, rfl, by decide, ?_⟩
  intro value h
  obtain ⟨n, rfl⟩ : ∃ n, value = n + 10 := ⟨value - 10, by omega⟩
  rfl

/-- Claim C8. The success flag only ever goes from true to false. A call of `error`
appends exactly `"error: " + message + "\n"` and sets the flag to false; a call of
`warning` appends exactly `"warning: " + message + "\n"` and leaves the flag as it
is; no operation (`visit_texture`, `visit_sampler`, `visit_uniform`,
`compile_entry_point`, `visit_technique`, `run`) turns a false flag true again.
Hence, when the compiler library loads and the flag is true when `run` starts (as
it is in a compiler that has just been constructed), `run` returns true if and
only if `error` was not called during the run. -/
theorem success_flag_only_falls (env : d3d9_env) (c : d3d9_effect_compiler) :
    (∀ message, (error c message)._errors = c._errors ++ ("error: " ++ message ++ "\n") ∧
      (error c message)._success = false ∧
      (error c message).error_calls = c.error_calls + 1) ∧
    (∀ message, (warning c message)._errors = c._errors ++ ("warning: " ++ message ++ "\n") ∧
      (warning c message)._success = c._success ∧
      (warning c message).error_calls = c.error_calls) ∧
    (c._success = false →
      (∀ info, (visit_texture env c info)._success = false) ∧
      (∀ info, (visit_sampler env c info)._success = false) ∧
      (∀ info, (visit_uniform env c info)._success = false) ∧
      (∀ hlsl entry_point is_ps,
        (compile_entry_point env c hlsl entry_point is_ps)._success = false) ∧
      (∀ info, (visit_technique env c info)._success = false) ∧
      (∀ m, (run env m c).2._success = false ∧ (run env m c).1 = false)) ∧
    (∀ m, (env.load_d3dcompiler_47 || env.load_d3dcompiler_43) = true → c._success = true →
      ((run env m c).1 = true ↔ (run env m c).2.error_calls = c.error_calls)) ∧
    (∀ runtime errors m, (env.load_d3dcompiler_47 || env.load_d3dcompiler_43) = true →
      ((run env m (d3d9_effect_compiler.create runtime errors)).1 = true ↔
        (run env m (d3d9_effect_compiler.create runtime errors)).2.error_calls = 0)) := by
  refine ⟨fun _ => ⟨rfl, rfl, rfl⟩, fun _ => ⟨rfl, rfl, rfl⟩, ?_, ?_, ?_⟩
  · intro hc
    exact ⟨fun info => flag_step_false (visit_texture_flag_step env c info) hc,
      fun info => flag_step_false (visit_sampler_flag_step env c info) hc,
      fun info => flag_step_false (visit_uniform_flag_step env c info) hc,
      fun hlsl entry_point is_ps =>
        flag_step_false (compile_entry_point_flag_step env c hlsl entry_point is_ps) hc,
      fun info => flag_step_false (visit_technique_flag_step env c info) hc,
      fun m => ⟨(run_false_of_flag_false env m c hc).2, (run_false_of_flag_false env m c hc).1⟩⟩
  · intro m hload hc
    exact run_true_iff_no_error_call env m c hload hc
  · intro runtime errors m hload
    exact run_true_iff_no_error_call env m (d3d9_effect_compiler.create runtime errors) hload rfl

/-- Claim C8 on the examples: the library loads, `run` calls `error` once (the
texture `A` is declared again with other dimensions) and returns false. -/
theorem success_flag_only_falls_witness :
    (run example_env example_module example_compiler).2.error_calls = 1 ∧
    (run example_env example_module example_compiler).1 = false ∧
    ((run example_env example_module example_compiler).1 = true ↔
      (run example_env example_module example_compiler).2.error_calls =
        example_compiler.error_calls) :=
  ⟨by decide, by decide,
    (success_flag_only_falls example_env example_compiler).2.2.2.1 example_module
      (by decide) (by decide)⟩

/-- Claim C9. `visit_technique` is all-or-nothing about registration.
(1) If pass `p` names, at an index `j < 8`, a non-empty render target for which
`find_texture` returns nothing, and that name is reached (`BeginStateBlock` has
succeeded for the passes up to `p`, and the loop has not left through `break` at
an index before `j`), then `visit_technique` records the error
`texture not found` (the text ends with it, the flag is false, `error` is called
once) and the runtime is unchanged: no technique is added.
(2) Whenever `visit_technique` records an error, the runtime is unchanged.
(3) If `visit_technique` records no error, exactly one technique is added; it has
the name of `info` and one pass per pass of `info`, in the same order (pass `k`
carries the `clear_render_targets` flag and the state block of pass `k` of `info`). -/
theorem visit_technique_all_or_nothing (env : d3d9_env) (c : d3d9_effect_compiler)
    (info : technique_info) :
    (∀ (p : Nat) (pinfo : pass_info) (j : Nat), info.passes[p]? = some pinfo →
      (∀ k, k ≤ p → FAILED (env.BeginStateBlock info.name k) = false) →
      j < 8 →
      pinfo.render_target_names.getD j "" ≠ "" →
      find_texture c._runtime (pinfo.render_target_names.getD j "") = none →
      (∀ k, k < j → pinfo.render_target_names.getD k "" ≠ "" →
        find_texture c._runtime (pinfo.render_target_names.getD k "") ≠ none →
        k ≤ env.NumSimultaneousRTs) →
      (∃ added, (visit_technique env c info)._errors =
        c._errors ++ added ++ "error: texture not found\n") ∧
      (visit_technique env c info)._success = false ∧
      (visit_technique env c info).error_calls = c.error_calls + 1 ∧
      (visit_technique env c info)._runtime = c._runtime) ∧
    ((visit_technique env c info).error_calls ≠ c.error_calls →
      (visit_technique env c info)._runtime = c._runtime) ∧
    ((visit_technique env c info).error_calls = c.error_calls →
      ∃ tech, (visit_technique env c info)._runtime = add_technique c._runtime tech ∧
        (visit_technique env c info)._runtime.techniques = c._runtime.techniques ++ [tech] ∧
        tech.name = info.name ∧
        tech.passes.length = info.passes.length ∧
        ∀ (k : Nat) (pinfo : pass_info), info.passes[k]? = some pinfo →
          ∃ pass, tech.passes[k]? = some pass ∧
            pass.clear_render_targets = pinfo.clear_render_targets ∧
            pass.stateblock = some (record_stateblock pass pinfo)) := by
  refine ⟨?_, ?_, ?_⟩
  · intro p pinfo j hp hbegin hj hname hmiss hbreak
    obtain ⟨c1, added, hloop, hframe, herr, hsucc, hcalls⟩ :=
      pass_loop_missing env info.name info.passes 0 c [] p pinfo j hp
        (by simpa using hbegin) hj hname hmiss hbreak
    unfold visit_technique
    rw [hloop]
    simp only []
    refine ⟨⟨added, ?_⟩, rfl, ?_, hframe.1⟩
    · unfold errors_extended at herr
      simp only [error, herr]
      rfl
    · simp only [error, hcalls]
  · intro hne
    unfold visit_technique at hne ⊢
    split
    · rename_i c1 heq
      exact (pass_loop_returned env _ _ _ _ _ _ heq).1.1
    · rename_i c1 passes heq
      rw [heq] at hne
      exact absurd (pass_loop_completed env _ _ _ _ _ _ _ heq).2.2.1 hne
  · intro heq0
    unfold visit_technique at heq0 ⊢
    split
    · rename_i c1 heq
      rw [heq] at heq0
      have := (pass_loop_returned env _ _ _ _ _ _ heq).2.2
      simp only [] at heq0
      omega
    · rename_i c1 passes heq
      obtain ⟨hframe, -, -, built, hbuilt, hall⟩ := pass_loop_completed env _ _ _ _ _ _ _ heq
      simp only [List.nil_append] at hbuilt
      subst hbuilt
      refine ⟨{ make_technique c info with passes := passes }, ?_, ?_, rfl, ?_, ?_⟩
      · simp only [hframe.1]
      · simp only [add_technique, hframe.1]
      · exact hall.length_eq.symm
      · intro k pinfo hk
        have hlt : k < passes.length := by
          rw [← hall.length_eq]
          exact (List.getElem?_eq_some_iff.mp hk).1
        refine ⟨passes[k], List.getElem?_eq_getElem hlt, ?_⟩
        obtain ⟨idx, c2, c3, -, hrt⟩ :=
          forall2_getElem hall k pinfo passes[k] hk (List.getElem?_eq_getElem hlt)
        obtain ⟨-, -, -, h4, h5, h6, h7, -, -⟩ :=
          render_target_loop_keeps env pinfo idx 8 0 c2 c3 _ _ hrt
        refine ⟨h4, ?_⟩
        rw [h5]
        simp only [end_stateblock]
        congr 1
        exact record_stateblock_congr _ _ pinfo h6.symm h7.symm

/-- Claim C9 on the examples: the only pass names the render target `missing`,
which no texture has. -/
theorem visit_technique_all_or_nothing_witness :
    (∃ added, (visit_technique example_env example_compiler
        (example_technique_info ["missing"]))._errors =
      example_compiler._errors ++ added ++ "error: texture not found\n") ∧
    (visit_technique example_env example_compiler
      (example_technique_info ["missing"]))._success = false ∧
    (visit_technique example_env example_compiler
      (example_technique_info ["missing"])).error_calls = example_compiler.error_calls + 1 ∧
    (visit_technique example_env example_compiler
      (example_technique_info ["missing"]))._runtime = example_compiler._runtime :=
  (visit_technique_all_or_nothing example_env example_compiler
    (example_technique_info ["missing"])).1 0 (example_pass_info ["missing"]) 0 rfl
    (by decide) (by decide) (by decide) (by decide) (by decide)

end reshade.d3d9
